import Mathlib

/-!
# Bluetooth LE central and peripheral samples

A shallow embedding of `samples/bluetooth/central_hr/src/main.c` (namespace `Central`)
and `samples/bluetooth/peripheral/src/main.c` (namespace `Peripheral`).

* Every callback of the C program is a function from the program state (the file-scope
  variables) to the new state, the list of host requests and log lines it issued, and
  its return value where it has one.
* The result codes that the Bluetooth host returns to the requests issued inside a
  callback are an explicit argument (`host_rc`).
* `struct bt_conn *` values are natural numbers, `NULL` is `none`.
* Machine integers are `Nat`/`Int` with the reduction modulo `2 ^ w` written out where
  the C code can overflow.
* A callback whose C behaviour is undefined at some input (a read through a null pointer
  or past the end of an object) returns `none` there.
-/

namespace Central

/-! ## Host constants and types used by the central -/

/-- AD type of the element "complete local name" (Bluetooth assigned number). -/
def BT_DATA_NAME_COMPLETE : Nat := 0x09

/-- Advertising report type "connectable undirected" (HCI value). -/
def BT_GAP_ADV_TYPE_ADV_IND : Nat := 0x00

/-- Advertising report type "connectable directed" (HCI value). -/
def BT_GAP_ADV_TYPE_ADV_DIRECT_IND : Nat := 0x01

/-- Value written to a CCC descriptor to enable notifications. -/
def BT_GATT_CCC_NOTIFY : Nat := 0x0001

/-- Security level requested by `le_param_updated`. -/
def BT_SECURITY_L2 : Nat := 2

/-- The `size_t` width of the 32-bit targets this SDK builds for. -/
def SIZE_BITS : Nat := 32

/-- A `struct bt_uuid`: the type tag selects a 16-bit or a 128-bit value
(the 128-bit value is stored little-endian, as `BT_UUID_INIT_128` lays it out). -/
inductive bt_uuid where
  | uuid16 (val : Nat)
  | uuid128 (val : List Nat)
  deriving DecidableEq, Repr

/-- Custom service UUID. -/
def my_svc_uuid : bt_uuid :=
  .uuid128 [0xf0, 0xde, 0xbc, 0x9a, 0x78, 0x56, 0x34, 0x12, 0x78,
            0x56, 0x34, 0x12, 0x78, 0x56, 0x34, 0x12]

/-- Custom characteristic UUID. -/
def my_char_uuid : bt_uuid :=
  .uuid128 [0xf1, 0xde, 0xbc, 0x9a, 0x78, 0x56, 0x34, 0x12, 0x78,
            0x56, 0x34, 0x12, 0x78, 0x56, 0x34, 0x12]

/-- The well-known Client Characteristic Configuration descriptor UUID (0x2902). -/
def BT_UUID_GATT_CCC : bt_uuid := .uuid16 0x2902

/-- The 128-bit form of a UUID: a 16-bit value is placed in bytes 12 and 13 of the
Bluetooth base UUID. -/
def uuid_to_uuid128 : bt_uuid → List Nat
  | .uuid16 v => [0xFB, 0x34, 0x9B, 0x5F, 0x80, 0x00, 0x00, 0x80, 0x00, 0x10, 0x00, 0x00,
                  v % 256, v / 256 % 256, 0x00, 0x00]
  | .uuid128 b => b

/-- Modelled from the spec: `bt_uuid_cmp` belongs to the host library and is not part of
these sources. UUIDs are value types with equality; the result is `0` exactly when
the two UUIDs denote the same 128-bit value and non-zero otherwise. -/
def bt_uuid_cmp (u1 u2 : bt_uuid) : Int :=
  if uuid_to_uuid128 u1 = uuid_to_uuid128 u2 then 0 else 1

/-- The `type` of a discovery request (`BT_GATT_DISCOVER_*`); `PRIMARY` is the
enumerator with value zero. -/
inductive discover_type where
  | PRIMARY
  | SECONDARY
  | INCLUDE
  | CHARACTERISTIC
  | DESCRIPTOR
  | ATTRIBUTE
  deriving DecidableEq, Repr

/-- Return value of a GATT iterator callback. -/
inductive bt_gatt_iter where
  | STOP
  | CONTINUE
  deriving DecidableEq, Repr

/-- Where the pointer `discover_params.uuid` points: nowhere, or at the file-scope
buffer `uuid`. -/
inductive uuid_ptr where
  | NULL
  | uuid
  deriving DecidableEq, Repr

/-- The callback stored in `discover_params.func`. -/
inductive discover_cb where
  | NULL
  | discover_func
  deriving DecidableEq, Repr

/-- The callback stored in `subscribe_params.notify`. -/
inductive notify_cb where
  | NULL
  | notify_func
  deriving DecidableEq, Repr

/-- The fields of `struct bt_gatt_discover_params` that the program writes. -/
structure bt_gatt_discover_params where
  uuid : uuid_ptr
  func : discover_cb
  start_handle : Nat
  end_handle : Nat
  type : discover_type
  deriving DecidableEq, Repr

/-- The fields of `struct bt_gatt_subscribe_params` that the program writes. -/
structure bt_gatt_subscribe_params where
  notify : notify_cb
  value : Nat
  value_handle : Nat
  ccc_handle : Nat
  deriving DecidableEq, Repr

/-- A discovered attribute as the callback sees it: its handle and what
`bt_gatt_attr_value_handle` returns for it (a host-library accessor). -/
structure bt_gatt_attr where
  handle : Nat
  value_handle : Nat
  deriving DecidableEq, Repr

/-- One structured element of an advertisement report (`struct bt_data`). -/
structure bt_data where
  type : Nat
  data_len : Nat
  data : List Nat
  deriving DecidableEq, Repr

/-- The file-scope variables of the central. -/
structure State where
  default_conn : Option Nat
  uuid : bt_uuid
  discover_params : bt_gatt_discover_params
  subscribe_params : bt_gatt_subscribe_params
  counter : Nat
  deriving DecidableEq, Repr

/-- Result codes returned by the host to the requests a callback issues. -/
structure host_rc where
  scan_stop : Int
  create_conn : Int
  new_conn : Nat
  scan_start : Int
  discover : Int
  subscribe : Int
  set_security : Int
  deriving DecidableEq, Repr

/-- The lines the program prints. -/
inductive Msg where
  | unsubscribed
  | mismatch (observed : Nat) (expected : Int)
  | discover_complete
  | attribute (handle : Nat)
  | discover_failed (err : Int)
  | subscribe_failed (err : Int)
  | subscribed
  | scan_stop_err (err : Int)
  | create_conn_failed (err : Int)
  | device (addr : Nat) (type : Nat) (len : Nat) (rssi : Int)
  | scan_failed (err : Int)
  | scan_started
  | connect_failed (conn : Nat) (conn_err : Nat)
  | connected (conn : Nat)
  | disconnected (conn : Nat) (reason : Nat)
  | conn_interval (ms : Nat)
  | set_security_err (err : Int)
  deriving DecidableEq, Repr

/-- A discovery request as handed to `bt_gatt_discover`: the connection and the
contents of `discover_params` (with the UUID the pointer designates) at that moment. -/
structure discover_req where
  conn : Option Nat
  uuid : Option bt_uuid
  func : discover_cb
  start_handle : Nat
  end_handle : Nat
  type : discover_type
  deriving DecidableEq, Repr

/-- What a callback does to the outside world, in program order. -/
inductive Action where
  | printk (m : Msg)
  | bt_le_scan_stop
  | bt_conn_le_create (addr : Nat)
  | bt_le_scan_start
  | bt_conn_unref (conn : Option Nat)
  | bt_gatt_discover (req : discover_req)
  | bt_gatt_subscribe (conn : Nat) (params : bt_gatt_subscribe_params)
  | bt_conn_set_security (conn : Nat) (level : Nat)
  deriving DecidableEq, Repr

/-- The bytes of the string literal "iSpam", terminator included. -/
def iSpam : List Nat := [0x69, 0x53, 0x70, 0x61, 0x6d, 0x00]

/-- The value of `memcmp(a, b, n) == 0`: bytes are compared in order up to the first
difference; `none` when the comparison would read past the end of an object. -/
def memcmp_eq_zero : List Nat → List Nat → Nat → Option Bool
  | _, _, 0 => some true
  | x :: xs, y :: ys, n + 1 => if x = y then memcmp_eq_zero xs ys n else some false
  | _, _, _ + 1 => none

/-- The pointed-to UUID of `discover_params.uuid`. -/
def deref_uuid (st : State) : Option bt_uuid :=
  match st.discover_params.uuid with
  | .NULL => none
  | .uuid => some st.uuid

/-- The request that `bt_gatt_discover(conn, &discover_params)` hands to the host. -/
def discover_request (st : State) (conn : Option Nat) : discover_req :=
  { conn := conn
    uuid := deref_uuid st
    func := st.discover_params.func
    start_handle := st.discover_params.start_handle
    end_handle := st.discover_params.end_handle
    type := st.discover_params.type }

/-- The file-scope variables at program start (static storage is zero-initialised). -/
def init : State :=
  { default_conn := none
    uuid := .uuid16 0
    discover_params :=
      { uuid := .NULL, func := .NULL, start_handle := 0, end_handle := 0, type := .PRIMARY }
    subscribe_params := { notify := .NULL, value := 0, value_handle := 0, ccc_handle := 0 }
    counter := 0 }

/-! ## The callbacks of the central -/

/-- Embedding of `notify_func`. `data = none` is the null data pointer; `data = some bytes`
is a non-null pointer and the bytes stored at it, of which the first `length` are the
payload (the function never reads `length`). `params` is `&subscribe_params`, the
structure the subscription was made with. -/
def notify_func (st : State) (_conn : Nat) (data : Option (List Nat)) (_length : Nat) :
    Option (State × List Action × bt_gatt_iter) :=
  match data with
  | none =>
    some ({ st with subscribe_params := { st.subscribe_params with value_handle := 0 } },
          [.printk .unsubscribed], .STOP)
  | some [] => none
  | some (b :: _) =>
    let st1 := { st with counter := (st.counter + 1) % 256 }
    if b ≠ st.counter then
      some (st1, [.printk (.mismatch b ((st1.counter : Int) - 1))], .CONTINUE)
    else
      some (st1, [], .CONTINUE)

/-- Embedding of `discover_func`. `params` is `&discover_params`, the structure the
request was made with; `EALREADY` is the errno constant of the C library. -/
def discover_func (EALREADY : Int) (st : State) (conn : Nat) (attr : Option bt_gatt_attr)
    (rc : host_rc) : Option (State × List Action × bt_gatt_iter) :=
  match attr with
  | none =>
    some ({ st with discover_params :=
              { uuid := .NULL, func := .NULL, start_handle := 0, end_handle := 0,
                type := .PRIMARY } },
          [.printk .discover_complete], .STOP)
  | some a =>
    match deref_uuid st with
    | none => none
    | some u =>
      if bt_uuid_cmp u my_svc_uuid = 0 then
        let st1 : State :=
          { st with
            uuid := my_char_uuid
            discover_params :=
              { st.discover_params with
                uuid := .uuid
                start_handle := (a.handle + 1) % 65536
                type := .CHARACTERISTIC } }
        some (st1,
          [.printk (.attribute a.handle), .bt_gatt_discover (discover_request st1 (some conn))]
            ++ (if rc.discover ≠ 0 then [.printk (.discover_failed rc.discover)] else []),
          .STOP)
      else if bt_uuid_cmp u my_char_uuid = 0 then
        let st1 : State :=
          { st with
            uuid := BT_UUID_GATT_CCC
            discover_params :=
              { st.discover_params with
                uuid := .uuid
                start_handle := (a.handle + 2) % 65536
                type := .DESCRIPTOR }
            subscribe_params := { st.subscribe_params with value_handle := a.value_handle } }
        some (st1,
          [.printk (.attribute a.handle), .bt_gatt_discover (discover_request st1 (some conn))]
            ++ (if rc.discover ≠ 0 then [.printk (.discover_failed rc.discover)] else []),
          .STOP)
      else
        let st1 : State :=
          { st with
            subscribe_params :=
              { st.subscribe_params with
                notify := .notify_func
                value := BT_GATT_CCC_NOTIFY
                ccc_handle := a.handle } }
        some (st1,
          [.printk (.attribute a.handle), .bt_gatt_subscribe conn st1.subscribe_params,
           if rc.subscribe ≠ 0 ∧ rc.subscribe ≠ -EALREADY then
             .printk (.subscribe_failed rc.subscribe)
           else .printk .subscribed],
          .STOP)

/-- Embedding of `start_scan` (active scan, no duplicate filtering, `device_found`
as the report callback). -/
def start_scan (rc : host_rc) : List Action :=
  [.bt_le_scan_start,
   if rc.scan_start ≠ 0 then .printk (.scan_failed rc.scan_start) else .printk .scan_started]

/-- Embedding of `eir_found`; `user_data` is the advertiser's address. The third
argument of `memcmp` is `data_len - 1` converted to `size_t`. -/
def eir_found (st : State) (data : bt_data) (user_data : Nat) (rc : host_rc) :
    Option (State × List Action × Bool) :=
  if data.type = BT_DATA_NAME_COMPLETE then
    match memcmp_eq_zero data.data iSpam
        (((data.data_len : Int) - 1) % (2 : Int) ^ SIZE_BITS).toNat with
    | none => none
    | some true =>
      let stop : List Action :=
        .bt_le_scan_stop ::
          (if rc.scan_stop ≠ 0 then [.printk (.scan_stop_err rc.scan_stop)] else [])
      if rc.create_conn ≠ 0 then
        some (st,
          stop ++ [.bt_conn_le_create user_data, .printk (.create_conn_failed rc.create_conn)]
            ++ start_scan rc,
          false)
      else
        some ({ st with default_conn := some rc.new_conn },
          stop ++ [.bt_conn_le_create user_data], false)
    | some false => some (st, [], true)
  else
    some (st, [], true)

/-- Modelled from the spec: `bt_data_parse` belongs to the host library and is not part
of these sources. It walks the structured elements of the report in order and hands
each one to the callback until the callback returns false. -/
def bt_data_parse (st : State) (ad : List bt_data) (user_data : Nat) (rc : host_rc) :
    Option (State × List Action) :=
  match ad with
  | [] => some (st, [])
  | d :: rest =>
    match eir_found st d user_data rc with
    | none => none
    | some (st1, acts, false) => some (st1, acts)
    | some (st1, acts, true) =>
      match bt_data_parse st1 rest user_data rc with
      | none => none
      | some (st2, acts2) => some (st2, acts ++ acts2)

/-- Embedding of `device_found`. -/
def device_found (st : State) (addr : Nat) (rssi : Int) (type : Nat) (ad : List bt_data)
    (rc : host_rc) : Option (State × List Action) :=
  let log : Action :=
    .printk (.device addr type ((ad.map fun d => d.data_len + 2).sum) rssi)
  if type = BT_GAP_ADV_TYPE_ADV_IND ∨ type = BT_GAP_ADV_TYPE_ADV_DIRECT_IND then
    match bt_data_parse st ad addr rc with
    | none => none
    | some (st1, acts) => some (st1, log :: acts)
  else
    some (st, [log])

/-- Embedding of `connected` of the central. -/
def connected (st : State) (conn : Nat) (conn_err : Nat) (rc : host_rc) :
    State × List Action :=
  if conn_err ≠ 0 then
    ({ st with default_conn := none },
     [.printk (.connect_failed conn conn_err), .bt_conn_unref st.default_conn] ++ start_scan rc)
  else if some conn = st.default_conn then
    let st1 : State :=
      { st with
        uuid := my_svc_uuid
        discover_params :=
          { uuid := .uuid, func := .discover_func, start_handle := 0x0001,
            end_handle := 0xffff, type := .PRIMARY } }
    (st1,
     [.printk (.connected conn), .bt_gatt_discover (discover_request st1 st1.default_conn)]
       ++ (if rc.discover ≠ 0 then [.printk (.discover_failed rc.discover)] else []))
  else
    (st, [.printk (.connected conn)])

/-- Embedding of `disconnected` of the central. -/
def disconnected (st : State) (conn : Nat) (reason : Nat) (rc : host_rc) :
    State × List Action :=
  let st1 : State := { st with counter := 0 }
  if st1.default_conn ≠ some conn then
    (st1, [.printk (.disconnected conn reason)])
  else
    ({ st1 with default_conn := none },
     [.printk (.disconnected conn reason), .bt_conn_unref st1.default_conn] ++ start_scan rc)

/-- Embedding of `le_param_updated` of the central. -/
def le_param_updated (st : State) (conn : Nat) (interval _latency _timeout : Nat)
    (rc : host_rc) : State × List Action :=
  (st,
   [.printk (.conn_interval (interval * 5 / 4)), .bt_conn_set_security conn BT_SECURITY_L2]
     ++ (if rc.set_security ≠ 0 then [.printk (.set_security_err rc.set_security)] else []))

/-! ## The central as an event-driven machine -/

/-- The callbacks the host can invoke on the central. -/
inductive Event where
  | device_found (addr : Nat) (rssi : Int) (type : Nat) (ad : List bt_data)
  | connected (conn : Nat) (conn_err : Nat)
  | disconnected (conn : Nat) (reason : Nat)
  | le_param_updated (conn : Nat) (interval : Nat) (latency : Nat) (timeout : Nat)
  | discover (conn : Nat) (attr : Option bt_gatt_attr)
  | notification (conn : Nat) (data : Option (List Nat)) (length : Nat)
  deriving DecidableEq, Repr

/-- One callback invocation: the new state and what the callback issued. -/
def step (EALREADY : Int) (st : State) (e : Event) (rc : host_rc) :
    Option (State × List Action) :=
  match e with
  | .device_found addr rssi type ad => device_found st addr rssi type ad rc
  | .connected conn conn_err => some (connected st conn conn_err rc)
  | .disconnected conn reason => some (disconnected st conn reason rc)
  | .le_param_updated conn interval latency timeout =>
    some (le_param_updated st conn interval latency timeout rc)
  | .discover conn attr =>
    match discover_func EALREADY st conn attr rc with
    | none => none
    | some (st1, acts, _) => some (st1, acts)
  | .notification conn data length =>
    match notify_func st conn data length with
    | none => none
    | some (st1, acts, _) => some (st1, acts)

/-- A sequence of callback invocations: the final state and, per event, what was
issued while handling it. -/
def run (EALREADY : Int) (st : State) :
    List (Event × host_rc) → Option (State × List (Event × List Action))
  | [] => some (st, [])
  | (e, rc) :: rest =>
    match step EALREADY st e rc with
    | none => none
    | some (st1, acts) =>
      match run EALREADY st1 rest with
      | none => none
      | some (st2, tr) => some (st2, (e, acts) :: tr)

/-- Whether an action is a connect request. -/
def Action.is_create : Action → Bool
  | .bt_conn_le_create _ => true
  | _ => false

/-- The link of the central as the host sees it: no connection, a connection being
created by an accepted connect request, or an established connection. -/
inductive link_state where
  | idle
  | connecting (conn : Nat)
  | established (conn : Nat)
  deriving DecidableEq, Repr

/-- Modelled from the spec: the order in which the Bluetooth host, which is not part of
these sources, delivers events to the central. The central has a single connection at
a time: advertisement reports are delivered while the central scans, which it does
while no connection is being created or is established; a connect request that the
host accepts is followed by one connected event, for the connection the request
returned; parameter updates, discovery results, notifications and the disconnected
event are delivered for the established connection. The result is the link after the
event, the program having issued `acts` while handling it, and `none` when the host
does not deliver the event in that state. -/
def host_step (h : link_state) (e : Event) (rc : host_rc) (acts : List Action) :
    Option link_state :=
  match h, e with
  | .idle, .device_found _ _ _ _ =>
    if acts.any Action.is_create = true ∧ rc.create_conn = 0 then
      some (.connecting rc.new_conn)
    else some .idle
  | .connecting c, .connected conn conn_err =>
    if conn = c then (if conn_err = 0 then some (.established c) else some .idle) else none
  | .established c, .disconnected conn _ => if conn = c then some .idle else none
  | .established c, .le_param_updated conn _ _ _ =>
    if conn = c then some (.established c) else none
  | .established c, .discover conn _ => if conn = c then some (.established c) else none
  | .established c, .notification conn _ _ =>
    if conn = c then some (.established c) else none
  | _, _ => none

/-- A sequence of events as the host delivers it, from a link and a program state: the
link and the program state at the end; `none` when the host does not deliver one of
the events or the behaviour of a callback is undefined. -/
def host_run (EALREADY : Int) :
    link_state → State → List (Event × host_rc) → Option (link_state × State)
  | h, st, [] => some (h, st)
  | h, st, (e, rc) :: rest =>
    match step EALREADY st e rc with
    | none => none
    | some (st1, acts) =>
      match host_step h e rc acts with
      | none => none
      | some h1 => host_run EALREADY h1 st1 rest

/-- What the link tells about the program state: the counter is 0 unless a connection
is established, and the connection being created or established is the owned one. -/
def link_inv : link_state → State → Prop
  | .idle, st => st.counter = 0
  | .connecting c, st => st.default_conn = some c ∧ st.counter = 0
  | .established c, st => st.default_conn = some c

/-- Whether an action is a discovery request. -/
def Action.is_discover : Action → Bool
  | .bt_gatt_discover _ => true
  | _ => false

/-- Whether an action is a subscribe request. -/
def Action.is_subscribe : Action → Bool
  | .bt_gatt_subscribe _ _ => true
  | _ => false

/-- Whether an action is a log line. -/
def Action.is_printk : Action → Bool
  | .printk _ => true
  | _ => false

/-- The host requests among the actions of a callback (everything but log lines). -/
def requests (acts : List Action) : List Action :=
  acts.filter fun a => !a.is_printk

/-- Number of discovery requests among the actions of a callback. -/
def discover_count (acts : List Action) : Nat :=
  (acts.filter Action.is_discover).length

/-- Whether an event is the null-attribute (terminal) discovery callback. -/
def Event.is_terminal_discover : Event → Bool
  | .discover _ none => true
  | _ => false

/-- The reading "no discovery request is issued while the previous one still waits
for its null-attribute callback", checked along a trace. The flag says whether a
request has been issued whose terminal callback has not been delivered yet. -/
def terminal_before_next : Bool → List (Event × List Action) → Bool
  | _, [] => true
  | outstanding, (e, acts) :: rest =>
    let waiting := outstanding && !e.is_terminal_discover
    if discover_count acts = 0 then terminal_before_next waiting rest
    else if waiting || decide (1 < discover_count acts) then false
    else terminal_before_next true rest

/-- The notification callbacks that deliver the given payloads, in order, on a
connection. -/
def deliver (conn : Nat) (rc : host_rc) (ps : List (List Nat)) : List (Event × host_rc) :=
  ps.map fun p => (.notification conn (some p) p.length, rc)

/-- The type of the discovery request that an action makes, if it is one. -/
def Action.discover_kind : Action → Option discover_type
  | .bt_gatt_discover r => some r.type
  | _ => none

/-- A host that accepts every request and hands out connection `1`. -/
def rc_ok : host_rc :=
  { scan_stop := 0, create_conn := 0, new_conn := 1, scan_start := 0, discover := 0,
    subscribe := 0, set_security := 0 }

/-- The session used in the examples: the central finds "iSpam", connection 1 is
created and established, the service is reported at handle 10, the characteristic at
12 with value handle 13, the CCC descriptor at 14, and one notification arrives. -/
def session : List (Event × host_rc) :=
  [(.device_found 7 (-40) BT_GAP_ADV_TYPE_ADV_IND
      [{ type := BT_DATA_NAME_COMPLETE, data_len := 5, data := [0x69, 0x53, 0x70, 0x61, 0x6d] }],
    rc_ok),
   (.connected 1 0, rc_ok),
   (.discover 1 (some ⟨10, 0⟩), rc_ok),
   (.discover 1 (some ⟨12, 13⟩), rc_ok),
   (.discover 1 (some ⟨14, 0⟩), rc_ok),
   (.notification 1 (some [0]) 1, rc_ok)]

/-- The state in which `session` leaves the central. -/
def subscribed : State :=
  { default_conn := some 1
    uuid := BT_UUID_GATT_CCC
    discover_params :=
      { uuid := .uuid, func := .discover_func, start_handle := 14, end_handle := 0xffff,
        type := .DESCRIPTOR }
    subscribe_params :=
      { notify := .notify_func, value := BT_GATT_CCC_NOTIFY, value_handle := 13,
        ccc_handle := 14 }
    counter := 1 }

/-- A complete-name element carrying the given bytes. -/
def name_element (name : List Nat) : bt_data :=
  { type := BT_DATA_NAME_COMPLETE, data_len := name.length, data := name }

end Central

namespace Peripheral

/-! ## The peripheral -/

/-- The file-scope variables of the peripheral, and whether the producer thread
`notifications_spam_thread_id` is suspended. -/
structure State where
  default_conn : Option Nat
  counter : Nat
  suspended : Bool
  deriving DecidableEq, Repr

/-- The lines the program prints. -/
inductive Msg where
  | adv_failed (err : Int)
  | adv_started
  | connection_failed (err : Nat)
  | connected
  | disconnected (reason : Nat)
  | pairing_failed (err : Nat)
  | security_changed (level : Nat)
  | conn_interval (ms : Nat)
  | spam_start
  | notify_err (err : Int)
  | suspending
  deriving DecidableEq, Repr

/-- What a callback or the producer thread does to the outside world. -/
inductive Action where
  | printk (m : Msg)
  | bt_le_adv_start
  | bt_conn_ref (conn : Nat)
  | bt_conn_unref (conn : Nat)
  | k_thread_resume
  | k_thread_suspend
  | bt_gatt_notify (conn : Nat) (data : List Nat)
  deriving DecidableEq, Repr

/-- The state once `main` has returned and the producer thread has executed its first
statement, the suspension of itself. -/
def init : State := { default_conn := none, counter := 0, suspended := true }

/-- Embedding of `advertise`; `err` is the result of `bt_le_adv_start`. -/
def advertise (err : Int) : List Action :=
  [.bt_le_adv_start, if err ≠ 0 then .printk (.adv_failed err) else .printk .adv_started]

/-- Embedding of `connected` of the peripheral. -/
def connected (st : State) (conn : Nat) (err : Nat) : State × List Action :=
  if err ≠ 0 then
    (st, [.printk (.connection_failed err)])
  else
    ({ st with default_conn := some conn, counter := 0 },
     [.printk .connected, .bt_conn_ref conn])

/-- Embedding of `disconnected` of the peripheral. -/
def disconnected (st : State) (_conn : Nat) (reason : Nat) : State × List Action :=
  match st.default_conn with
  | some c => ({ st with default_conn := none }, [.printk (.disconnected reason), .bt_conn_unref c])
  | none => (st, [.printk (.disconnected reason)])

/-- Embedding of `security_changed`; `err = 0` is `BT_SECURITY_ERR_SUCCESS`. -/
def security_changed (st : State) (_conn : Nat) (level : Nat) (err : Nat) :
    State × List Action :=
  if err ≠ 0 then (st, [.printk (.pairing_failed err)])
  else (st, [.printk (.security_changed level)])

/-- Embedding of `le_param_updated` of the peripheral. -/
def le_param_updated (st : State) (_conn : Nat) (interval _latency _timeout : Nat) :
    State × List Action :=
  ({ st with suspended := false },
   [.printk (.conn_interval (interval * 5 / 4)), .printk .spam_start, .k_thread_resume])

/-- The 20 bytes that `snprintk(notif, 20, "%c-pkt-len-20-ascstr", c)` leaves in `notif`. -/
def notif (c : Nat) : List Nat :=
  (c % 256) ::
    [0x2d, 0x70, 0x6b, 0x74, 0x2d, 0x6c, 0x65, 0x6e, 0x2d, 0x32, 0x30, 0x2d,
     0x61, 0x73, 0x63, 0x73, 0x74, 0x72, 0x00]

/-- One pass through the body of the `while (1)` loop of
`notifications_spam_thread_entry_point`; `err` is the result of `bt_gatt_notify`.
A pass that suspends the thread ends there: the thread continues at the top of the
loop once it is resumed. -/
def loop_body (st : State) (err : Int) : State × List Action :=
  match st.default_conn with
  | some c =>
    let st1 : State := { st with counter := (st.counter + 1) % 256 }
    if err ≠ 0 then
      ({ st1 with counter := 0, suspended := true },
       [.bt_gatt_notify c (notif st.counter), .printk (.notify_err err), .printk .suspending,
        .k_thread_suspend])
    else
      (st1, [.bt_gatt_notify c (notif st.counter)])
  | none =>
    ({ st with counter := 0, suspended := true }, [.printk .suspending, .k_thread_suspend])

/-- The producer thread given the processor for one pass: a suspended thread does
not run. -/
def notifications_spam_thread_entry_point (st : State) (err : Int) : State × List Action :=
  if st.suspended then (st, []) else loop_body st err

/-- What can happen to the peripheral: a host callback, or the scheduler letting the
producer thread run one pass. -/
inductive Event where
  | connected (conn : Nat) (err : Nat)
  | disconnected (conn : Nat) (reason : Nat)
  | security_changed (conn : Nat) (level : Nat) (err : Nat)
  | le_param_updated (conn : Nat) (interval : Nat) (latency : Nat) (timeout : Nat)
  | thread_run (notify_err : Int)
  deriving DecidableEq, Repr

/-- One event: the new state and what was issued. -/
def step (st : State) : Event → State × List Action
  | .connected conn err => connected st conn err
  | .disconnected conn reason => disconnected st conn reason
  | .security_changed conn level err => security_changed st conn level err
  | .le_param_updated conn interval latency timeout =>
    le_param_updated st conn interval latency timeout
  | .thread_run err => notifications_spam_thread_entry_point st err

/-- A sequence of events from a state. -/
def run (st : State) : List Event → State
  | [] => st
  | e :: rest => run (step st e).1 rest

/-- Everything issued along a sequence of events, in order. -/
def trace (st : State) : List Event → List Action
  | [] => []
  | e :: rest => (step st e).2 ++ trace (step st e).1 rest

/-- The payloads of the notify requests among some actions, in order. -/
def payloads : List Action → List (List Nat)
  | [] => []
  | .bt_gatt_notify _ d :: rest => d :: payloads rest
  | _ :: rest => payloads rest

/-- The link of the peripheral as the host sees it. -/
inductive link_state where
  | idle
  | established (conn : Nat)
  deriving DecidableEq, Repr

/-- Modelled from the spec: the order in which the Bluetooth host, which is not part of
these sources, delivers events to the peripheral. The peripheral has a single
connection at a time: a connected event is delivered while no connection is
established; security changes, parameter updates and the disconnected event are
delivered for the established connection; the producer thread can be given the
processor at any time. The result is the link after the event, `none` when the host
does not deliver the event in that state. -/
def host_step (h : link_state) (e : Event) : Option link_state :=
  match h, e with
  | h, .thread_run _ => some h
  | .idle, .connected conn err => if err = 0 then some (.established conn) else some .idle
  | .established c, .disconnected conn _ => if conn = c then some .idle else none
  | .established c, .security_changed conn _ _ =>
    if conn = c then some (.established c) else none
  | .established c, .le_param_updated conn _ _ _ =>
    if conn = c then some (.established c) else none
  | _, _ => none

/-- A sequence of events as the host and the scheduler deliver it: the link and the
program state at the end, `none` when one of the events is not delivered. -/
def host_run : link_state → State → List Event → Option (link_state × State)
  | h, st, [] => some (h, st)
  | h, st, e :: rest =>
    match host_step h e with
    | none => none
    | some h1 => host_run h1 (step st e).1 rest

/-- What the link tells about the program state: the established connection is the
owned one, and none is owned without one. -/
def link_inv : link_state → State → Prop
  | .idle, st => st.default_conn = none
  | .established c, st => st.default_conn = some c

/-- Whether an action is a notify request. -/
def Action.is_notify : Action → Bool
  | .bt_gatt_notify _ _ => true
  | _ => false

/-- Number of notify requests among the actions of a step. -/
def notify_count (acts : List Action) : Nat :=
  (acts.filter Action.is_notify).length

end Peripheral

/-! ## Helper lemmas -/

namespace Central

lemma eir_found_counter {st st1 : State} {d : bt_data} {u : Nat} {rc : host_rc}
    {acts : List Action} {b : Bool} (h : eir_found st d u rc = some (st1, acts, b)) :
    st1.counter = st.counter := by
  unfold eir_found at h
  split at h
  · split at h
    · simp at h
    · by_cases hc : rc.create_conn = 0
      · simp [hc] at h
        obtain ⟨rfl, _, _⟩ := h
        rfl
      · simp [hc] at h
        obtain ⟨rfl, _, _⟩ := h
        rfl
    · simp at h
      obtain ⟨rfl, _, _⟩ := h
      rfl
  · simp at h
    obtain ⟨rfl, _, _⟩ := h
    rfl

lemma bt_data_parse_counter {ad : List bt_data} {st st1 : State} {u : Nat} {rc : host_rc}
    {acts : List Action} (h : bt_data_parse st ad u rc = some (st1, acts)) :
    st1.counter = st.counter := by
  induction ad generalizing st acts with
  | nil =>
    simp [bt_data_parse] at h
    obtain ⟨rfl, _⟩ := h
    rfl
  | cons d rest ih =>
    unfold bt_data_parse at h
    split at h
    · simp at h
    · rename_i st2 acts2 he
      simp at h
      obtain ⟨rfl, _⟩ := h
      exact eir_found_counter he
    · rename_i st2 acts2 he
      split at h
      · simp at h
      · rename_i st3 acts3 hp
        simp at h
        obtain ⟨rfl, _⟩ := h
        rw [ih hp, eir_found_counter he]

lemma device_found_counter {st st1 : State} {addr : Nat} {rssi : Int} {type : Nat}
    {ad : List bt_data} {rc : host_rc} {acts : List Action}
    (h : device_found st addr rssi type ad rc = some (st1, acts)) :
    st1.counter = st.counter := by
  unfold device_found at h
  simp only at h
  split at h
  · split at h
    · simp at h
    · rename_i st2 acts2 hp
      simp at h
      obtain ⟨rfl, _⟩ := h
      exact bt_data_parse_counter hp
  · simp at h
    obtain ⟨rfl, _⟩ := h
    rfl

lemma connected_counter (st : State) (conn conn_err : Nat) (rc : host_rc) :
    (connected st conn conn_err rc).1.counter = st.counter := by
  unfold connected
  split
  · rfl
  · split <;> rfl

lemma disconnected_counter (st : State) (conn reason : Nat) (rc : host_rc) :
    (disconnected st conn reason rc).1.counter = 0 := by
  unfold disconnected
  simp only
  split <;> rfl

lemma discover_func_service_phase (E : Int) (st : State) (conn : Nat) (a : bt_gatt_attr)
    (rc : host_rc) (hp : st.discover_params.uuid = .uuid)
    (hu : bt_uuid_cmp st.uuid my_svc_uuid = 0) :
    discover_func E st conn (some a) rc
      = some ({ st with
                uuid := my_char_uuid
                discover_params :=
                  { st.discover_params with
                    uuid := .uuid
                    start_handle := (a.handle + 1) % 65536
                    type := .CHARACTERISTIC } },
              [.printk (.attribute a.handle),
               .bt_gatt_discover
                 ⟨some conn, some my_char_uuid, st.discover_params.func,
                  (a.handle + 1) % 65536, st.discover_params.end_handle, .CHARACTERISTIC⟩]
                ++ (if rc.discover ≠ 0 then [.printk (.discover_failed rc.discover)] else []),
              .STOP) := by
  simp [discover_func, deref_uuid, hp, hu, discover_request]

lemma discover_func_characteristic_phase (E : Int) (st : State) (conn : Nat)
    (a : bt_gatt_attr) (rc : host_rc) (hp : st.discover_params.uuid = .uuid)
    (hs : bt_uuid_cmp st.uuid my_svc_uuid ≠ 0) (hu : bt_uuid_cmp st.uuid my_char_uuid = 0) :
    discover_func E st conn (some a) rc
      = some ({ st with
                uuid := BT_UUID_GATT_CCC
                discover_params :=
                  { st.discover_params with
                    uuid := .uuid
                    start_handle := (a.handle + 2) % 65536
                    type := .DESCRIPTOR }
                subscribe_params :=
                  { st.subscribe_params with value_handle := a.value_handle } },
              [.printk (.attribute a.handle),
               .bt_gatt_discover
                 ⟨some conn, some BT_UUID_GATT_CCC, st.discover_params.func,
                  (a.handle + 2) % 65536, st.discover_params.end_handle, .DESCRIPTOR⟩]
                ++ (if rc.discover ≠ 0 then [.printk (.discover_failed rc.discover)] else []),
              .STOP) := by
  simp [discover_func, deref_uuid, hp, hs, hu, discover_request]

lemma discover_func_descriptor_phase (E : Int) (st : State) (conn : Nat) (a : bt_gatt_attr)
    (rc : host_rc) (hp : st.discover_params.uuid = .uuid)
    (hs : bt_uuid_cmp st.uuid my_svc_uuid ≠ 0) (hu : bt_uuid_cmp st.uuid my_char_uuid ≠ 0) :
    discover_func E st conn (some a) rc
      = some ({ st with
                subscribe_params :=
                  { st.subscribe_params with
                    notify := .notify_func
                    value := BT_GATT_CCC_NOTIFY
                    ccc_handle := a.handle } },
              [.printk (.attribute a.handle),
               .bt_gatt_subscribe conn
                 ⟨.notify_func, BT_GATT_CCC_NOTIFY, st.subscribe_params.value_handle, a.handle⟩,
               if rc.subscribe ≠ 0 ∧ rc.subscribe ≠ -E then
                 .printk (.subscribe_failed rc.subscribe)
               else .printk .subscribed],
              .STOP) := by
  simp [discover_func, deref_uuid, hp, hs, hu]

lemma requests_discover (m : Msg) (r : discover_req) (err : Int) :
    requests ([.printk m, .bt_gatt_discover r]
      ++ (if err ≠ 0 then [.printk (.discover_failed err)] else [])) = [.bt_gatt_discover r] := by
  by_cases h : err = 0 <;> simp [requests, Action.is_printk, h]

lemma requests_subscribe (m : Msg) (conn : Nat) (p : bt_gatt_subscribe_params) (c : Prop)
    [Decidable c] (m1 m2 : Msg) :
    requests [.printk m, .bt_gatt_subscribe conn p, if c then .printk m1 else .printk m2]
      = [.bt_gatt_subscribe conn p] := by
  by_cases h : c <;> simp [requests, Action.is_printk, h]

lemma cmp_svc_svc : bt_uuid_cmp my_svc_uuid my_svc_uuid = 0 := by decide

lemma cmp_char_svc : bt_uuid_cmp my_char_uuid my_svc_uuid ≠ 0 := by decide

lemma cmp_char_char : bt_uuid_cmp my_char_uuid my_char_uuid = 0 := by decide

lemma cmp_ccc_svc : bt_uuid_cmp BT_UUID_GATT_CCC my_svc_uuid ≠ 0 := by decide

lemma cmp_ccc_char : bt_uuid_cmp BT_UUID_GATT_CCC my_char_uuid ≠ 0 := by decide

lemma connected_ok (st : State) (conn : Nat) (rc : host_rc)
    (hconn : st.default_conn = some conn) :
    (connected st conn 0 rc).1
      = { st with
          uuid := my_svc_uuid
          discover_params :=
            { uuid := .uuid, func := .discover_func, start_handle := 0x0001,
              end_handle := 0xffff, type := .PRIMARY } } := by
  simp [connected, hconn]

lemma notify_func_data (st : State) (conn b : Nat) (rest : List Nat) (length : Nat) :
    notify_func st conn (some (b :: rest)) length
      = some ({ st with counter := (st.counter + 1) % 256 },
              (if b ≠ st.counter then
                [.printk (.mismatch b ((((st.counter + 1) % 256 : Nat) : Int) - 1))]
               else []),
              .CONTINUE) := by
  by_cases hb : b = st.counter <;> simp [notify_func, hb]

lemma run_cons_notification (E : Int) (st : State) (conn b : Nat) (rest : List Nat)
    (length : Nat) (rc : host_rc) (evs : List (Event × host_rc)) :
    run E st ((.notification conn (some (b :: rest)) length, rc) :: evs)
      = match run E { st with counter := (st.counter + 1) % 256 } evs with
        | none => none
        | some (st2, tr) =>
          some (st2,
            (.notification conn (some (b :: rest)) length,
              (if b ≠ st.counter then
                [.printk (.mismatch b ((((st.counter + 1) % 256 : Nat) : Int) - 1))]
               else [])) :: tr) := by
  simp [run, step, notify_func_data]

lemma run_deliver_counter (E : Int) (conn : Nat) (rc : host_rc) (ps : List (List Nat))
    (st : State) (hne : ∀ p ∈ ps, p ≠ []) (hc : st.counter < 256) :
    ∃ st1 tr, run E st (deliver conn rc ps) = some (st1, tr)
      ∧ st1.counter = (st.counter + ps.length) % 256 := by
  induction ps generalizing st with
  | nil => exact ⟨st, [], rfl, by simp [Nat.mod_eq_of_lt hc]⟩
  | cons p rest ih =>
    cases p with
    | nil => exact absurd rfl (hne [] (List.mem_cons_self _ _))
    | cons b tl =>
      obtain ⟨st1, tr, hr, hcount⟩ := ih { st with counter := (st.counter + 1) % 256 }
        (fun q hq => hne q (List.mem_cons_of_mem _ hq)) (Nat.mod_lt _ (by decide))
      have hlast : st1.counter = (st.counter + ((b :: tl) :: rest).length) % 256 := by
        rw [hcount]
        simp only [List.length_cons]
        omega
      simp only [deliver, List.map_cons] at hr ⊢
      rw [run_cons_notification, hr]
      exact ⟨st1, _, rfl, hlast⟩

lemma start_scan_no_discover (rc : host_rc) (r : discover_req) :
    Action.bt_gatt_discover r ∉ start_scan rc := by
  by_cases h : rc.scan_start = 0 <;> simp [start_scan, h]

lemma eir_found_no_discover {st st1 : State} {d : bt_data} {u : Nat} {rc : host_rc}
    {acts : List Action} {b : Bool} (h : eir_found st d u rc = some (st1, acts, b))
    (r : discover_req) : Action.bt_gatt_discover r ∉ acts := by
  have hs := start_scan_no_discover rc r
  unfold eir_found at h
  split at h
  · split at h
    · simp at h
    · by_cases hc : rc.create_conn = 0
      · by_cases h2 : rc.scan_stop = 0 <;> simp [hc, h2] at h <;> obtain ⟨_, rfl, _⟩ := h <;>
          simp
      · by_cases h2 : rc.scan_stop = 0 <;> simp [hc, h2] at h <;> obtain ⟨_, rfl, _⟩ := h <;>
          simp [hs]
    · simp at h
      obtain ⟨_, rfl, _⟩ := h
      simp
  · simp at h
    obtain ⟨_, rfl, _⟩ := h
    simp

lemma bt_data_parse_no_discover {ad : List bt_data} {st st1 : State} {u : Nat}
    {rc : host_rc} {acts : List Action} (h : bt_data_parse st ad u rc = some (st1, acts))
    (r : discover_req) : Action.bt_gatt_discover r ∉ acts := by
  induction ad generalizing st acts with
  | nil =>
    simp [bt_data_parse] at h
    obtain ⟨_, rfl⟩ := h
    simp
  | cons d rest ih =>
    unfold bt_data_parse at h
    split at h
    · simp at h
    · rename_i st2 acts2 he
      simp at h
      obtain ⟨_, rfl⟩ := h
      exact eir_found_no_discover he r
    · rename_i st2 acts2 he
      split at h
      · simp at h
      · rename_i st3 acts3 hp
        simp at h
        obtain ⟨rfl, rfl⟩ := h
        intro hm
        rcases List.mem_append.mp hm with hm | hm
        · exact eir_found_no_discover he r hm
        · exact ih hp hm

lemma device_found_no_discover {st st1 : State} {addr : Nat} {rssi : Int} {type : Nat}
    {ad : List bt_data} {rc : host_rc} {acts : List Action}
    (h : device_found st addr rssi type ad rc = some (st1, acts)) (r : discover_req) :
    Action.bt_gatt_discover r ∉ acts := by
  unfold device_found at h
  simp only at h
  split at h
  · split at h
    · simp at h
    · rename_i st2 acts2 hp
      simp at h
      obtain ⟨_, rfl⟩ := h
      intro hm
      rcases List.mem_cons.mp hm with hm | hm
      · cases hm
      · exact bt_data_parse_no_discover hp r hm
  · simp at h
    obtain ⟨_, rfl⟩ := h
    simp

/-- Which callback issues which discovery request: the connected handler issues Primary
requests only, and `discover_func` issues a Characteristic request in its service
branch and a Descriptor request in its characteristic branch. -/
lemma step_discover_origin {E : Int} {st st1 : State} {e : Event} {rc : host_rc}
    {acts : List Action} {r : discover_req} (hstep : step E st e rc = some (st1, acts))
    (hr : Action.bt_gatt_discover r ∈ acts) :
    ((∃ conn, e = .connected conn 0) ∧ r.type = .PRIMARY)
    ∨ (∃ conn a, e = .discover conn (some a) ∧ st.discover_params.uuid = .uuid
        ∧ bt_uuid_cmp st.uuid my_svc_uuid = 0 ∧ r.type = .CHARACTERISTIC)
    ∨ (∃ conn a, e = .discover conn (some a) ∧ st.discover_params.uuid = .uuid
        ∧ bt_uuid_cmp st.uuid my_svc_uuid ≠ 0 ∧ bt_uuid_cmp st.uuid my_char_uuid = 0
        ∧ r.type = .DESCRIPTOR) := by
  cases e with
  | device_found addr rssi type ad =>
    simp only [step] at hstep
    exact absurd hr (device_found_no_discover hstep r)
  | connected conn conn_err =>
    simp only [step, Option.some.injEq] at hstep
    unfold connected at hstep
    split at hstep
    · simp only [Prod.mk.injEq] at hstep
      obtain ⟨_, rfl⟩ := hstep
      have hs := start_scan_no_discover rc r
      simp [hs] at hr
    · rename_i hz
      have hz0 : conn_err = 0 := by
        by_contra hne
        exact hz hne
      subst hz0
      split at hstep
      · simp only [Prod.mk.injEq] at hstep
        obtain ⟨_, rfl⟩ := hstep
        left
        refine ⟨⟨conn, rfl⟩, ?_⟩
        by_cases hd : rc.discover = 0 <;> simp [hd, discover_request] at hr <;> rw [hr]
      · simp only [Prod.mk.injEq] at hstep
        obtain ⟨_, rfl⟩ := hstep
        simp at hr
  | disconnected conn reason =>
    simp only [step, Option.some.injEq] at hstep
    unfold disconnected at hstep
    simp only at hstep
    have hs := start_scan_no_discover rc r
    split at hstep <;> simp only [Prod.mk.injEq] at hstep <;> obtain ⟨_, rfl⟩ := hstep <;>
      simp [hs] at hr
  | le_param_updated conn interval latency timeout =>
    simp only [step, le_param_updated, Option.some.injEq, Prod.mk.injEq] at hstep
    obtain ⟨_, rfl⟩ := hstep
    by_cases hd : rc.set_security = 0 <;> simp [hd] at hr
  | discover conn attr =>
    cases attr with
    | none =>
      simp [step, discover_func] at hstep
      obtain ⟨_, rfl⟩ := hstep
      simp at hr
    | some a =>
      by_cases hp : st.discover_params.uuid = .uuid
      · by_cases h1 : bt_uuid_cmp st.uuid my_svc_uuid = 0
        · simp only [step, discover_func_service_phase E st conn a rc hp h1,
            Option.some.injEq, Prod.mk.injEq] at hstep
          obtain ⟨_, rfl⟩ := hstep
          right; left
          refine ⟨conn, a, rfl, hp, h1, ?_⟩
          by_cases hd : rc.discover = 0 <;> simp [hd] at hr <;> rw [hr]
        · by_cases h2 : bt_uuid_cmp st.uuid my_char_uuid = 0
          · simp only [step, discover_func_characteristic_phase E st conn a rc hp h1 h2,
              Option.some.injEq, Prod.mk.injEq] at hstep
            obtain ⟨_, rfl⟩ := hstep
            right; right
            refine ⟨conn, a, rfl, hp, h1, h2, ?_⟩
            by_cases hd : rc.discover = 0 <;> simp [hd] at hr <;> rw [hr]
          · simp only [step, discover_func_descriptor_phase E st conn a rc hp h1 h2,
              Option.some.injEq, Prod.mk.injEq] at hstep
            obtain ⟨_, rfl⟩ := hstep
            by_cases hd : rc.subscribe ≠ 0 ∧ rc.subscribe ≠ -E <;> simp [hd] at hr
      · have hn : st.discover_params.uuid = .NULL := by
          cases hu : st.discover_params.uuid with
          | NULL => rfl
          | uuid => exact absurd hu hp
        simp [step, discover_func, deref_uuid, hn] at hstep
  | notification conn data length =>
    cases data with
    | none =>
      simp [step, notify_func] at hstep
      obtain ⟨_, rfl⟩ := hstep
      simp at hr
    | some d =>
      cases d with
      | nil => simp [step, notify_func] at hstep
      | cons b tl =>
        simp only [step, notify_func_data, Option.some.injEq, Prod.mk.injEq] at hstep
        obtain ⟨_, rfl⟩ := hstep
        by_cases hb : b = st.counter <;> simp [hb] at hr

lemma start_scan_no_create (rc : host_rc) : (start_scan rc).any Action.is_create = false := by
  by_cases h : rc.scan_start = 0 <;> simp [start_scan, h, Action.is_create]

lemma eir_found_continue {st st1 : State} {d : bt_data} {u : Nat} {rc : host_rc}
    {acts : List Action} (h : eir_found st d u rc = some (st1, acts, true)) :
    st1 = st ∧ acts = [] := by
  unfold eir_found at h
  split at h
  · split at h
    · simp at h
    · by_cases hc : rc.create_conn = 0 <;> simp [hc] at h
    · simp at h
      exact ⟨h.1.symm, h.2⟩
  · simp at h
    exact ⟨h.1.symm, h.2⟩

lemma eir_found_create {st st1 : State} {d : bt_data} {u : Nat} {rc : host_rc}
    {acts : List Action} {b : Bool} (h : eir_found st d u rc = some (st1, acts, b))
    (ha : acts.any Action.is_create = true) (hz : rc.create_conn = 0) :
    st1.default_conn = some rc.new_conn := by
  unfold eir_found at h
  split at h
  · split at h
    · simp at h
    · simp [hz] at h
      obtain ⟨rfl, _, _⟩ := h
      rfl
    · simp at h
      obtain ⟨_, rfl, _⟩ := h
      simp at ha
  · simp at h
    obtain ⟨_, rfl, _⟩ := h
    simp at ha

lemma bt_data_parse_create {ad : List bt_data} {st st1 : State} {u : Nat} {rc : host_rc}
    {acts : List Action} (h : bt_data_parse st ad u rc = some (st1, acts))
    (ha : acts.any Action.is_create = true) (hz : rc.create_conn = 0) :
    st1.default_conn = some rc.new_conn := by
  induction ad generalizing st acts with
  | nil =>
    simp [bt_data_parse] at h
    obtain ⟨_, rfl⟩ := h
    simp at ha
  | cons d rest ih =>
    unfold bt_data_parse at h
    split at h
    · simp at h
    · rename_i st2 acts2 he
      simp at h
      obtain ⟨rfl, rfl⟩ := h
      exact eir_found_create he ha hz
    · rename_i st2 acts2 he
      split at h
      · simp at h
      · rename_i st3 acts3 hp
        simp at h
        obtain ⟨rfl, rfl⟩ := h
        obtain ⟨_, rfl⟩ := eir_found_continue he
        exact ih hp (by simpa using ha)

lemma device_found_create {st st1 : State} {addr : Nat} {rssi : Int} {type : Nat}
    {ad : List bt_data} {rc : host_rc} {acts : List Action}
    (h : device_found st addr rssi type ad rc = some (st1, acts))
    (ha : acts.any Action.is_create = true) (hz : rc.create_conn = 0) :
    st1.default_conn = some rc.new_conn := by
  unfold device_found at h
  simp only at h
  split at h
  · split at h
    · simp at h
    · rename_i st2 acts2 hp
      simp at h
      obtain ⟨rfl, rfl⟩ := h
      exact bt_data_parse_create hp (by simpa [Action.is_create] using ha) hz
  · simp at h
    obtain ⟨_, rfl⟩ := h
    simp [Action.is_create] at ha

lemma discover_func_default_conn {E : Int} {st st1 : State} {conn : Nat}
    {attr : Option bt_gatt_attr} {rc : host_rc} {acts : List Action} {r : bt_gatt_iter}
    (h : discover_func E st conn attr rc = some (st1, acts, r)) :
    st1.default_conn = st.default_conn := by
  unfold discover_func at h
  split at h
  · simp at h
    obtain ⟨rfl, _, _⟩ := h
    rfl
  · split at h
    · simp at h
    · split at h
      · simp at h
        obtain ⟨rfl, _, _⟩ := h
        rfl
      · split at h
        · simp at h
          obtain ⟨rfl, _, _⟩ := h
          rfl
        · simp at h
          obtain ⟨rfl, _, _⟩ := h
          rfl

lemma notify_func_default_conn {st st1 : State} {conn : Nat} {data : Option (List Nat)}
    {length : Nat} {acts : List Action} {r : bt_gatt_iter}
    (h : notify_func st conn data length = some (st1, acts, r)) :
    st1.default_conn = st.default_conn := by
  unfold notify_func at h
  split at h
  · simp at h
    obtain ⟨rfl, _, _⟩ := h
    rfl
  · simp at h
  · simp only at h
    split at h <;> simp at h <;> obtain ⟨rfl, _, _⟩ := h <;> rfl

/-- One delivered event keeps `link_inv`. -/
lemma host_step_inv {E : Int} {h h1 : link_state} {st st1 : State} {e : Event}
    {rc : host_rc} {acts : List Action} (hinv : link_inv h st)
    (hs : step E st e rc = some (st1, acts)) (hh : host_step h e rc acts = some h1) :
    link_inv h1 st1 := by
  cases h with
  | idle =>
    cases e with
    | device_found addr rssi type ad =>
      simp only [step] at hs
      have hcnt : st1.counter = 0 := by rw [device_found_counter hs]; exact hinv
      simp only [host_step] at hh
      split at hh
      · rename_i hc
        simp only [Option.some.injEq] at hh
        subst hh
        exact ⟨device_found_create hs hc.1 hc.2, hcnt⟩
      · simp only [Option.some.injEq] at hh
        subst hh
        exact hcnt
    | connected conn conn_err => simp [host_step] at hh
    | disconnected conn reason => simp [host_step] at hh
    | le_param_updated conn interval latency timeout => simp [host_step] at hh
    | discover conn attr => simp [host_step] at hh
    | notification conn data length => simp [host_step] at hh
  | connecting c =>
    cases e with
    | connected conn conn_err =>
      simp only [step, Option.some.injEq] at hs
      have hst : st1 = (connected st conn conn_err rc).1 := by rw [hs]
      simp only [host_step] at hh
      split at hh
      · rename_i hc
        subst hc
        split at hh
        · rename_i hz
          subst hz
          simp only [Option.some.injEq] at hh
          subst hh
          rw [hst, connected_ok st conn rc hinv.1]
          exact hinv.1
        · simp only [Option.some.injEq] at hh
          subst hh
          show st1.counter = 0
          rw [hst, connected_counter]
          exact hinv.2
      · simp at hh
    | device_found addr rssi type ad => simp [host_step] at hh
    | disconnected conn reason => simp [host_step] at hh
    | le_param_updated conn interval latency timeout => simp [host_step] at hh
    | discover conn attr => simp [host_step] at hh
    | notification conn data length => simp [host_step] at hh
  | established c =>
    have hown : st.default_conn = some c := hinv
    cases e with
    | device_found addr rssi type ad => simp [host_step] at hh
    | connected conn conn_err => simp [host_step] at hh
    | disconnected conn reason =>
      simp only [step, Option.some.injEq] at hs
      simp only [host_step] at hh
      split at hh
      · simp only [Option.some.injEq] at hh
        subst hh
        show st1.counter = 0
        rw [← disconnected_counter st conn reason rc, hs]
      · simp at hh
    | le_param_updated conn interval latency timeout =>
      simp only [step, le_param_updated, Option.some.injEq, Prod.mk.injEq] at hs
      obtain ⟨rfl, _⟩ := hs
      simp only [host_step] at hh
      split at hh
      · simp only [Option.some.injEq] at hh
        subst hh
        exact hown
      · simp at hh
    | discover conn attr =>
      simp only [step] at hs
      split at hs
      · simp at hs
      · rename_i st2 acts2 r hd
        simp at hs
        obtain ⟨rfl, _⟩ := hs
        simp only [host_step] at hh
        split at hh
        · simp only [Option.some.injEq] at hh
          subst hh
          show st2.default_conn = some c
          rw [discover_func_default_conn hd]
          exact hown
        · simp at hh
    | notification conn data length =>
      simp only [step] at hs
      split at hs
      · simp at hs
      · rename_i st2 acts2 r hd
        simp at hs
        obtain ⟨rfl, _⟩ := hs
        simp only [host_step] at hh
        split at hh
        · simp only [Option.some.injEq] at hh
          subst hh
          show st2.default_conn = some c
          rw [notify_func_default_conn hd]
          exact hown
        · simp at hh

/-- Every delivered sequence keeps `link_inv`. -/
lemma host_run_inv {E : Int} (evs : List (Event × host_rc)) {h h1 : link_state}
    {st st1 : State} (hinv : link_inv h st) (hr : host_run E h st evs = some (h1, st1)) :
    link_inv h1 st1 := by
  induction evs generalizing h st with
  | nil =>
    simp only [host_run, Option.some.injEq, Prod.mk.injEq] at hr
    obtain ⟨rfl, rfl⟩ := hr
    exact hinv
  | cons p rest ih =>
    obtain ⟨e, rc⟩ := p
    unfold host_run at hr
    split at hr
    · simp at hr
    · rename_i st2 acts hs
      split at hr
      · simp at hr
      · rename_i h2 hh
        exact ih (host_step_inv hinv hs hh) hr

/-- When the host delivers a connected event after a sequence delivered from the
initial state, the reported connection is the owned one and the counter is 0. -/
lemma host_run_connected {E : Int} {pre : List (Event × host_rc)} {h0 h1 : link_state}
    {st0 : State} {conn conn_err : Nat} {rc : host_rc} {acts : List Action}
    (hpre : host_run E .idle init pre = some (h0, st0))
    (hdel : host_step h0 (.connected conn conn_err) rc acts = some h1) :
    st0.default_conn = some conn ∧ st0.counter = 0 := by
  have hinv : link_inv h0 st0 := host_run_inv pre (show link_inv .idle init from rfl) hpre
  cases h0 with
  | idle => simp [host_step] at hdel
  | established c => simp [host_step] at hdel
  | connecting c =>
    simp only [host_step] at hdel
    split at hdel
    · rename_i hc
      subst hc
      exact hinv
    · simp at hdel

end Central

namespace Peripheral

lemma producer_host_step_inv {h h1 : link_state} {st : State} {e : Event}
    (hinv : link_inv h st)
    (hh : host_step h e = some h1) : link_inv h1 (step st e).1 := by
  cases e with
  | thread_run err =>
    simp only [host_step, Option.some.injEq] at hh
    subst hh
    have hkeep : (step st (.thread_run err)).1.default_conn = st.default_conn := by
      simp only [step, notifications_spam_thread_entry_point, loop_body]
      split
      · rfl
      · split
        · split <;> rfl
        · rfl
    cases h with
    | idle =>
      show (step st (.thread_run err)).1.default_conn = none
      rw [hkeep]
      exact hinv
    | established c =>
      show (step st (.thread_run err)).1.default_conn = some c
      rw [hkeep]
      exact hinv
  | connected conn err =>
    cases h with
    | idle =>
      simp only [host_step] at hh
      split at hh
      · rename_i hz
        subst hz
        simp only [Option.some.injEq] at hh
        subst hh
        simp [link_inv, step, connected]
      · rename_i hz
        simp only [Option.some.injEq] at hh
        subst hh
        have hi : st.default_conn = none := hinv
        simp [link_inv, step, connected, hz, hi]
    | established c => simp [host_step] at hh
  | disconnected conn reason =>
    cases h with
    | idle => simp [host_step] at hh
    | established c =>
      simp only [host_step] at hh
      split at hh
      · simp only [Option.some.injEq] at hh
        subst hh
        have hi : st.default_conn = some c := hinv
        simp [link_inv, step, disconnected, hi]
      · simp at hh
  | security_changed conn level err =>
    cases h with
    | idle => simp [host_step] at hh
    | established c =>
      simp only [host_step] at hh
      split at hh
      · simp only [Option.some.injEq] at hh
        subst hh
        have hi : st.default_conn = some c := hinv
        by_cases he : err = 0 <;> simp [link_inv, step, security_changed, he, hi]
      · simp at hh
  | le_param_updated conn interval latency timeout =>
    cases h with
    | idle => simp [host_step] at hh
    | established c =>
      simp only [host_step] at hh
      split at hh
      · simp only [Option.some.injEq] at hh
        subst hh
        have hi : st.default_conn = some c := hinv
        simp [link_inv, step, le_param_updated, hi]
      · simp at hh

lemma producer_host_run_inv (evs : List Event) {h h1 : link_state} {st st1 : State}
    (hinv : link_inv h st) (hr : host_run h st evs = some (h1, st1)) : link_inv h1 st1 := by
  induction evs generalizing h st with
  | nil =>
    simp only [host_run, Option.some.injEq, Prod.mk.injEq] at hr
    obtain ⟨rfl, rfl⟩ := hr
    exact hinv
  | cons e rest ih =>
    unfold host_run at hr
    split at hr
    · simp at hr
    · rename_i h2 hh
      exact ih (producer_host_step_inv hinv hh) hr

lemma run_successful_passes (n : Nat) (st : State) (c : Nat)
    (hown : st.default_conn = some c) (hrun : st.suspended = false)
    (hc : st.counter < 256) :
    run st (List.replicate n (.thread_run 0))
      = { st with counter := (st.counter + n) % 256 } := by
  induction n generalizing st with
  | zero => simp [run, Nat.mod_eq_of_lt hc]
  | succ n ih =>
    have hstep : (step st (.thread_run 0)).1
        = { st with counter := (st.counter + 1) % 256 } := by
      simp [step, notifications_spam_thread_entry_point, loop_body, hrun, hown]
    simp only [List.replicate_succ, run, hstep]
    have h256 : (st.counter + 1) % 256 < 256 := Nat.mod_lt _ (by decide)
    rw [ih { st with counter := (st.counter + 1) % 256 } hown hrun h256]
    simp only [State.mk.injEq, true_and, and_true]
    omega

lemma step_successful_pass (st : State) (c : Nat) (hown : st.default_conn = some c)
    (hrun : st.suspended = false) :
    step st (.thread_run 0)
      = ({ st with counter := (st.counter + 1) % 256 }, [.bt_gatt_notify c (notif st.counter)]) := by
  simp [step, notifications_spam_thread_entry_point, loop_body, hrun, hown]

/-- The consumer of the central follows the producer of the peripheral: when both
counters hold the same byte, the payloads of n successful passes are accepted without
any report and both counters advance by n modulo 256. -/
lemma consumer_follows_producer (E : Int) (conn c : Nat) (rc : Central.host_rc) (n : Nat)
    (pst : State) (cst : Central.State) (hown : pst.default_conn = some c)
    (hrun : pst.suspended = false) (hlt : pst.counter < 256)
    (heq : cst.counter = pst.counter) :
    (payloads (trace pst (List.replicate n (.thread_run 0)))).length = n
    ∧ ∃ st1 tr,
        Central.run E cst
            (Central.deliver conn rc
              (payloads (trace pst (List.replicate n (.thread_run 0)))))
          = some (st1, tr)
        ∧ (∀ p ∈ tr, p.2 = [])
        ∧ st1.counter = (pst.counter + n) % 256 := by
  induction n generalizing pst cst with
  | zero =>
    have hz : cst.counter = (pst.counter + 0) % 256 := by
      rw [heq, Nat.add_zero, Nat.mod_eq_of_lt hlt]
    exact ⟨rfl, cst, [], rfl, fun p hp => absurd hp (List.not_mem_nil p), hz⟩
  | succ n ih =>
    have h256 : (pst.counter + 1) % 256 < 256 := Nat.mod_lt _ (by decide)
    obtain ⟨hlen, st1, tr, hr, hquiet, hcount⟩ :=
      ih { pst with counter := (pst.counter + 1) % 256 }
        { cst with counter := (cst.counter + 1) % 256 } hown hrun h256
        (by simp only [heq])
    have htrace : payloads (trace pst (List.replicate (n + 1) (.thread_run 0)))
        = notif pst.counter
          :: payloads (trace { pst with counter := (pst.counter + 1) % 256 }
              (List.replicate n (.thread_run 0))) := by
      simp only [List.replicate_succ, trace, step_successful_pass pst c hown hrun,
        List.singleton_append, payloads]
    have hb : pst.counter % 256 = cst.counter := by rw [heq, Nat.mod_eq_of_lt hlt]
    rw [htrace]
    refine ⟨by simp only [List.length_cons, hlen], ?_⟩
    simp only [Central.deliver, List.map_cons, notif] at hr ⊢
    rw [Central.run_cons_notification, hr]
    refine ⟨st1, _, rfl, ?_, ?_⟩
    · intro p hp
      rcases List.mem_cons.mp hp with rfl | hp
      · simp [hb]
      · exact hquiet p hp
    · rw [hcount]
      simp only
      omega

end Peripheral

/-- The discovery walk from the state left by a connected event with error code 0 on
the owned connection: the three callbacks issue the characteristic discovery, the
descriptor discovery and the subscribe request, and do not write the counter. -/
lemma discovery_walk_from_connected (E : Int) (st : Central.State) (conn s c v d x y : Nat)
    (rc0 rc1 rc2 rc3 : Central.host_rc)
    (hconn : st.default_conn = some conn) (hs : s < 0xFFFF) (hc : c < 0xFFFE) :
    ∃ st2 a2 st3 a3 st4 a4,
      Central.discover_func E (Central.connected st conn 0 rc0).1 conn (some ⟨s, x⟩) rc1
        = some (st2, a2, .STOP)
      ∧ Central.requests a2 = [.bt_gatt_discover
          ⟨some conn, some Central.my_char_uuid, .discover_func, s + 1, 0xffff,
            .CHARACTERISTIC⟩]
      ∧ Central.discover_func E st2 conn (some ⟨c, v⟩) rc2 = some (st3, a3, .STOP)
      ∧ Central.requests a3 = [.bt_gatt_discover
          ⟨some conn, some Central.BT_UUID_GATT_CCC, .discover_func, c + 2, 0xffff,
            .DESCRIPTOR⟩]
      ∧ Central.discover_func E st3 conn (some ⟨d, y⟩) rc3 = some (st4, a4, .STOP)
      ∧ Central.requests a4 = [.bt_gatt_subscribe conn
          ⟨.notify_func, Central.BT_GATT_CCC_NOTIFY, v, d⟩]
      ∧ st4.subscribe_params.value_handle = v
      ∧ st4.subscribe_params.ccc_handle = d
      ∧ st4.counter = st.counter := by
  have hs1 : (s + 1) % 65536 = s + 1 := Nat.mod_eq_of_lt (by omega)
  have hc1 : (c + 2) % 65536 = c + 2 := Nat.mod_eq_of_lt (by omega)
  rw [Central.connected_ok st conn rc0 hconn]
  have h1 := Central.discover_func_service_phase E
    { st with
      uuid := Central.my_svc_uuid
      discover_params :=
        { uuid := .uuid, func := .discover_func, start_handle := 0x0001,
          end_handle := 0xffff, type := .PRIMARY } }
    conn ⟨s, x⟩ rc1 rfl Central.cmp_svc_svc
  have h2 := Central.discover_func_characteristic_phase E
    { st with
      uuid := Central.my_char_uuid
      discover_params :=
        { uuid := .uuid, func := .discover_func, start_handle := (s + 1) % 65536,
          end_handle := 0xffff, type := .CHARACTERISTIC } }
    conn ⟨c, v⟩ rc2 rfl Central.cmp_char_svc Central.cmp_char_char
  have h3 := Central.discover_func_descriptor_phase E
    { st with
      uuid := Central.BT_UUID_GATT_CCC
      discover_params :=
        { uuid := .uuid, func := .discover_func, start_handle := (c + 2) % 65536,
          end_handle := 0xffff, type := .DESCRIPTOR }
      subscribe_params := { st.subscribe_params with value_handle := v } }
    conn ⟨d, y⟩ rc3 rfl Central.cmp_ccc_svc Central.cmp_ccc_char
  simp only [hs1, hc1] at h1 h2 h3
  exact ⟨_, _, _, _, _, _, h1, Central.requests_discover _ _ _, h2,
    Central.requests_discover _ _ _, h3, Central.requests_subscribe _ _ _ _ _ _, rfl, rfl, rfl⟩

/-- The producer in any state: no notify request is issued in a step taken while no
connection is owned or while the producer is suspended, only the `le_param_updated`
handler takes the producer from suspended to running, and that handler always does. -/
lemma producer_gating_any_state (st : Peripheral.State) (e : Peripheral.Event) :
    ((st.default_conn = none ∨ st.suspended = true) →
      Peripheral.notify_count (Peripheral.step st e).2 = 0)
    ∧ (st.suspended = true → (Peripheral.step st e).1.suspended = false →
        ∃ conn interval latency timeout,
          e = .le_param_updated conn interval latency timeout)
    ∧ ∀ conn interval latency timeout,
        (Peripheral.step st (.le_param_updated conn interval latency timeout)).1.suspended
          = false := by
  refine ⟨?_, ?_, fun _ _ _ _ => rfl⟩
  · intro h
    cases e with
    | connected conn err =>
      by_cases he : err = 0 <;>
        simp [Peripheral.step, Peripheral.connected, Peripheral.notify_count,
          Peripheral.Action.is_notify, he]
    | disconnected conn reason =>
      simp only [Peripheral.step, Peripheral.disconnected]
      split <;> simp [Peripheral.notify_count, Peripheral.Action.is_notify]
    | security_changed conn level err =>
      by_cases he : err = 0 <;>
        simp [Peripheral.step, Peripheral.security_changed, Peripheral.notify_count,
          Peripheral.Action.is_notify, he]
    | le_param_updated conn interval latency timeout =>
      simp [Peripheral.step, Peripheral.le_param_updated, Peripheral.notify_count,
        Peripheral.Action.is_notify]
    | thread_run err =>
      simp only [Peripheral.step, Peripheral.notifications_spam_thread_entry_point]
      by_cases hs : st.suspended = true
      · simp [hs, Peripheral.notify_count]
      · have hn : st.default_conn = none := by
          rcases h with h | h
          · exact h
          · exact absurd h hs
        simp [hs, Peripheral.loop_body, hn, Peripheral.notify_count,
          Peripheral.Action.is_notify]
  · intro hs hr
    cases e with
    | connected conn err =>
      exfalso
      by_cases he : err = 0 <;>
        simp [Peripheral.step, Peripheral.connected, he, hs] at hr
    | disconnected conn reason =>
      exfalso
      simp only [Peripheral.step, Peripheral.disconnected] at hr
      split at hr <;> simp [hs] at hr
    | security_changed conn level err =>
      exfalso
      by_cases he : err = 0 <;>
        simp [Peripheral.step, Peripheral.security_changed, he, hs] at hr
    | le_param_updated conn interval latency timeout =>
      exact ⟨conn, interval, latency, timeout, rfl⟩
    | thread_run err =>
      exfalso
      simp [Peripheral.step, Peripheral.notifications_spam_thread_entry_point, hs] at hr

/-! ## The claims -/

/-- C1 (defect in `eir_found`): the comparison `memcmp(data->data, "iSpam", data_len - 1)`
looks at one byte fewer than the name has. In a connectable report (ADV_IND) the name
"iSpam" makes the central stop scanning and connect and the name "Other" lets the scan
go on, as the claim says; but the five-byte name "iSpaX" and the one-byte name "X",
both different from "iSpam", also make it stop scanning and issue a connect request,
whereas the claim says that a name different from "iSpam" issues neither. -/
theorem C1_eir_found_ignores_last_name_byte :
    Central.device_found Central.init 7 (-40) Central.BT_GAP_ADV_TYPE_ADV_IND
        [Central.name_element [0x69, 0x53, 0x70, 0x61, 0x6d]] Central.rc_ok
      = some ({ Central.init with default_conn := some 1 },
              [.printk (.device 7 0 7 (-40)), .bt_le_scan_stop, .bt_conn_le_create 7])
    ∧ Central.device_found Central.init 7 (-40) Central.BT_GAP_ADV_TYPE_ADV_IND
        [Central.name_element [0x4f, 0x74, 0x68, 0x65, 0x72]] Central.rc_ok
      = some (Central.init, [.printk (.device 7 0 7 (-40))])
    ∧ [0x69, 0x53, 0x70, 0x61, 0x58] ≠ [0x69, 0x53, 0x70, 0x61, 0x6d]
    ∧ Central.device_found Central.init 7 (-40) Central.BT_GAP_ADV_TYPE_ADV_IND
        [Central.name_element [0x69, 0x53, 0x70, 0x61, 0x58]] Central.rc_ok
      = some ({ Central.init with default_conn := some 1 },
              [.printk (.device 7 0 7 (-40)), .bt_le_scan_stop, .bt_conn_le_create 7])
    ∧ Central.device_found Central.init 7 (-40) Central.BT_GAP_ADV_TYPE_ADV_IND
        [Central.name_element [0x58]] Central.rc_ok
      = some ({ Central.init with default_conn := some 1 },
              [.printk (.device 7 0 3 (-40)), .bt_le_scan_stop, .bt_conn_le_create 7]) := by
  decide

/-- C2 (counterexample): in the peripheral, with connection 1 owned, a disconnected
event that reports connection 2 clears the owned connection. -/
theorem C2_peripheral_stale_disconnect_clears :
    (Peripheral.run Peripheral.init [.connected 1 0]).default_conn = some 1
    ∧ (Peripheral.run Peripheral.init [.connected 1 0, .disconnected 2 0x13]).default_conn
        = none := by
  decide

/-- C2 (amended): for every disconnected event whose connection differs from the owned
one, the central keeps the owned connection as it was; the peripheral does not compare
the reported connection with the owned one and owns no connection afterwards. -/
theorem C2_stale_disconnect_by_role (cst : Central.State) (pst : Peripheral.State)
    (conn reason : Nat) (rc : Central.host_rc) (h : cst.default_conn ≠ some conn) :
    (Central.disconnected cst conn reason rc).1.default_conn = cst.default_conn
    ∧ (Peripheral.disconnected pst conn reason).1.default_conn = none := by
  constructor
  · unfold Central.disconnected
    simp [h]
  · unfold Peripheral.disconnected
    split
    · rfl
    · rename_i hn
      exact hn

/-- C2 (witness): the central owns connection 1 and is told that connection 2 dropped. -/
theorem C2_stale_disconnect_by_role_witness :
    (Central.disconnected { Central.init with default_conn := some 1 } 2 0x13
        Central.rc_ok).1.default_conn = some 1
    ∧ (Peripheral.disconnected { default_conn := some 1, counter := 0, suspended := false }
        2 0x13).1.default_conn = none :=
  C2_stale_disconnect_by_role { Central.init with default_conn := some 1 }
    { default_conn := some 1, counter := 0, suspended := false } 2 0x13 Central.rc_ok
    (by decide)

/-- C3: in both roles the notification counter is 0 immediately after the handler of
every connected event with error code 0. The handler of the peripheral sets it to 0,
in every state. The handler of the central does not write it, but along every sequence
of events that the host delivers from the initial state the central receives a
connected event only while its counter is 0: the counter is advanced only by
notifications of an established connection and the disconnected event resets it. -/
theorem C3_counter_zero_after_connected (E : Int)
    (pre : List (Central.Event × Central.host_rc)) (h0 h1 : Central.link_state)
    (cst : Central.State) (conn : Nat) (rc : Central.host_rc)
    (pst : Peripheral.State) (pconn : Nat)
    (hpre : Central.host_run E .idle Central.init pre = some (h0, cst))
    (hdel : Central.host_step h0 (.connected conn 0) rc (Central.connected cst conn 0 rc).2
      = some h1) :
    (Central.connected cst conn 0 rc).1.counter = 0
    ∧ (Peripheral.connected pst pconn 0).1.counter = 0 := by
  refine ⟨?_, rfl⟩
  rw [Central.connected_counter]
  exact (Central.host_run_connected hpre hdel).2

/-- C3 (witness): the central has had a session with one notification, lost the link,
found "iSpam" again and is told that connection 1 is established; the peripheral has
sent two notifications, lost the link and is connected to again. -/
theorem C3_counter_zero_after_connected_witness :
    Central.host_run 120 .idle Central.init
        (Central.session ++
          [(.disconnected 1 0x13, Central.rc_ok),
           (.device_found 7 (-40) Central.BT_GAP_ADV_TYPE_ADV_IND
              [Central.name_element [0x69, 0x53, 0x70, 0x61, 0x6d]], Central.rc_ok)])
      = some (.connecting 1, { Central.subscribed with counter := 0 })
    ∧ (Central.connected { Central.subscribed with counter := 0 } 1 0
        Central.rc_ok).1.counter = 0
    ∧ Peripheral.run Peripheral.init
        [.connected 1 0, .le_param_updated 1 24 0 400, .thread_run 0, .thread_run 0,
         .disconnected 1 0x13]
      = { default_conn := none, counter := 2, suspended := false }
    ∧ (Peripheral.connected { default_conn := none, counter := 2, suspended := false }
        1 0).1.counter = 0 :=
  have hc : Central.host_run 120 .idle Central.init
      (Central.session ++
        [(.disconnected 1 0x13, Central.rc_ok),
         (.device_found 7 (-40) Central.BT_GAP_ADV_TYPE_ADV_IND
            [Central.name_element [0x69, 0x53, 0x70, 0x61, 0x6d]], Central.rc_ok)])
      = some (.connecting 1, { Central.subscribed with counter := 0 }) := by decide
  have h := C3_counter_zero_after_connected 120 _ (.connecting 1) (.established 1)
    { Central.subscribed with counter := 0 } 1 Central.rc_ok
    { default_conn := none, counter := 2, suspended := false } 1 hc (by decide)
  ⟨hc, h.1, by decide, h.2⟩

/-- C4: for every state with expected counter c and every notification whose data starts
with byte b, `notify_func` returns "continue" and changes nothing but the counter,
which becomes (c + 1) mod 256; it prints a mismatch line exactly when b differs from c.
With b = 5, c = 5 nothing is printed and the counter becomes 6; with b = 7, c = 6 the
mismatch is printed and the counter becomes 7. -/
theorem C4_notify_func_advances_counter :
    (∀ (st : Central.State) (conn b : Nat) (rest : List Nat) (length : Nat),
      ∃ acts, Central.notify_func st conn (some (b :: rest)) length
          = some ({ st with counter := (st.counter + 1) % 256 }, acts, .CONTINUE)
        ∧ ((∃ o e, Central.Action.printk (.mismatch o e) ∈ acts) ↔ b ≠ st.counter))
    ∧ Central.notify_func { Central.init with counter := 5 } 1 (some [5]) 1
        = some ({ Central.init with counter := 6 }, [], .CONTINUE)
    ∧ Central.notify_func { Central.init with counter := 6 } 1 (some [7]) 1
        = some ({ Central.init with counter := 7 }, [.printk (.mismatch 7 6)], .CONTINUE) := by
  refine ⟨?_, by decide, by decide⟩
  intro st conn b rest length
  by_cases hb : b = st.counter
  · exact ⟨[], by simp [Central.notify_func, hb], by simp [hb]⟩
  · exact ⟨[.printk (.mismatch b ((((st.counter + 1) % 256 : Nat) : Int) - 1))],
      by simp [Central.notify_func, hb], by simp [hb]⟩

/-- C5 (counterexample): after a successful connected event a service attribute at handle
0xFFFF makes `discover_func` issue the characteristic discovery with start handle 0,
the 16-bit result of 0xFFFF + 1, and not with start handle 0xFFFF + 1. -/
theorem C5_service_at_last_handle_wraps :
    (Central.discover_func 120
        (Central.connected { Central.init with default_conn := some 1 } 1 0 Central.rc_ok).1
        1 (some ⟨0xFFFF, 0⟩) Central.rc_ok).map (fun r => Central.requests r.2.1)
      = some [.bt_gatt_discover
          ⟨some 1, some Central.my_char_uuid, .discover_func, 0, 0xffff, .CHARACTERISTIC⟩]
    ∧ 0xFFFF + 1 ≠ 0 := by
  decide

/-- C5 (amended): for all handles s < 0xFFFF, c < 0xFFFE, v and d, from the state left
by a connected event with error code 0 that the host delivers after any sequence of
events from the initial state, the callbacks [service at s], [characteristic at c with
value handle v], [CCC at d] make `discover_func` issue, in order and whatever the host
answers, a characteristic discovery for the custom characteristic UUID from s + 1, a
descriptor discovery for the CCC UUID from c + 2 and one subscribe request with notify
enabled; each callback returns "stop", and at the end the value handle is v, the CCC
handle is d and the expected counter is 0. -/
theorem C5_discovery_walk (E : Int) (pre : List (Central.Event × Central.host_rc))
    (h0 h1 : Central.link_state) (st : Central.State) (conn s c v d x y : Nat)
    (rc0 rc1 rc2 rc3 : Central.host_rc)
    (hpre : Central.host_run E .idle Central.init pre = some (h0, st))
    (hdel : Central.host_step h0 (.connected conn 0) rc0 (Central.connected st conn 0 rc0).2
      = some h1)
    (hs : s < 0xFFFF) (hc : c < 0xFFFE) :
    ∃ st2 a2 st3 a3 st4 a4,
      Central.discover_func E (Central.connected st conn 0 rc0).1 conn (some ⟨s, x⟩) rc1
        = some (st2, a2, .STOP)
      ∧ Central.requests a2 = [.bt_gatt_discover
          ⟨some conn, some Central.my_char_uuid, .discover_func, s + 1, 0xffff,
            .CHARACTERISTIC⟩]
      ∧ Central.discover_func E st2 conn (some ⟨c, v⟩) rc2 = some (st3, a3, .STOP)
      ∧ Central.requests a3 = [.bt_gatt_discover
          ⟨some conn, some Central.BT_UUID_GATT_CCC, .discover_func, c + 2, 0xffff,
            .DESCRIPTOR⟩]
      ∧ Central.discover_func E st3 conn (some ⟨d, y⟩) rc3 = some (st4, a4, .STOP)
      ∧ Central.requests a4 = [.bt_gatt_subscribe conn
          ⟨.notify_func, Central.BT_GATT_CCC_NOTIFY, v, d⟩]
      ∧ st4.subscribe_params.value_handle = v
      ∧ st4.subscribe_params.ccc_handle = d
      ∧ st4.counter = 0 := by
  obtain ⟨hown, hzero⟩ := Central.host_run_connected hpre hdel
  obtain ⟨st2, a2, st3, a3, st4, a4, e1, r1, e2, r2, e3, r3, hv, hd, hcount⟩ :=
    discovery_walk_from_connected E st conn s c v d x y rc0 rc1 rc2 rc3 hown hs hc
  exact ⟨st2, a2, st3, a3, st4, a4, e1, r1, e2, r2, e3, r3, hv, hd, by rw [hcount, hzero]⟩

/-- C5 (witness): the central found "iSpam" and connection 1 is established; service at
handle 10, characteristic at 12 with value handle 13, CCC at 14: the walk ends with
value handle 13, CCC handle 14 and expected counter 0. -/
theorem C5_discovery_walk_witness :
    (10 < 0xFFFF ∧ 12 < 0xFFFE)
    ∧ ∃ st2 a2 st3 a3 st4 a4,
      Central.discover_func 120
          (Central.connected { Central.init with default_conn := some 1 } 1 0
            Central.rc_ok).1 1 (some ⟨10, 0⟩) Central.rc_ok
        = some (st2, a2, .STOP)
      ∧ Central.requests a2 = [.bt_gatt_discover
          ⟨some 1, some Central.my_char_uuid, .discover_func, 11, 0xffff, .CHARACTERISTIC⟩]
      ∧ Central.discover_func 120 st2 1 (some ⟨12, 13⟩) Central.rc_ok = some (st3, a3, .STOP)
      ∧ Central.requests a3 = [.bt_gatt_discover
          ⟨some 1, some Central.BT_UUID_GATT_CCC, .discover_func, 14, 0xffff, .DESCRIPTOR⟩]
      ∧ Central.discover_func 120 st3 1 (some ⟨14, 0⟩) Central.rc_ok = some (st4, a4, .STOP)
      ∧ Central.requests a4 = [.bt_gatt_subscribe 1
          ⟨.notify_func, Central.BT_GATT_CCC_NOTIFY, 13, 14⟩]
      ∧ st4.subscribe_params.value_handle = 13
      ∧ st4.subscribe_params.ccc_handle = 14
      ∧ st4.counter = 0 :=
  ⟨by decide,
   C5_discovery_walk 120
    [(.device_found 7 (-40) Central.BT_GAP_ADV_TYPE_ADV_IND
        [Central.name_element [0x69, 0x53, 0x70, 0x61, 0x6d]], Central.rc_ok)]
    (.connecting 1) (.established 1) { Central.init with default_conn := some 1 }
    1 10 12 13 14 0 0 Central.rc_ok Central.rc_ok Central.rc_ok Central.rc_ok
    (by decide) (by decide) (by decide) (by decide)⟩

/-- C6 (counterexample): the peripheral owns connection 1 and has sent two notifications;
the disconnected handler for connection 1 releases the connection and does nothing
else: the counter is still 2 and no advertise-start request is issued. -/
theorem C6_peripheral_disconnected_only_releases :
    Peripheral.run Peripheral.init
        [.connected 1 0, .le_param_updated 1 24 0 400, .thread_run 0, .thread_run 0]
      = { default_conn := some 1, counter := 2, suspended := false }
    ∧ Peripheral.disconnected { default_conn := some 1, counter := 2, suspended := false }
        1 0x13
      = ({ default_conn := none, counter := 2, suspended := false },
         [.printk (.disconnected 0x13), .bt_conn_unref 1]) := by
  decide

/-- C6 (amended): in the peripheral, for every state in which a connection is owned, the
disconnected handler releases ownership (no connection is owned afterwards); it leaves
the notification counter unchanged and issues no advertise-start request. The counter
is reset to 0 afterwards: by the next pass of the producer, if it is running, which
also suspends it, and by the next connected event with error code 0. -/
theorem C6_peripheral_disconnected_releases (st : Peripheral.State) (conn c reason : Nat)
    (h : st.default_conn = some c) :
    Peripheral.disconnected st conn reason
      = ({ st with default_conn := none }, [.printk (.disconnected reason), .bt_conn_unref c])
    ∧ (Peripheral.disconnected st conn reason).1.default_conn = none
    ∧ (Peripheral.disconnected st conn reason).1.counter = st.counter
    ∧ Peripheral.Action.bt_le_adv_start ∉ (Peripheral.disconnected st conn reason).2
    ∧ (∀ err, st.suspended = false →
        (Peripheral.notifications_spam_thread_entry_point
          (Peripheral.disconnected st conn reason).1 err).1
          = { default_conn := none, counter := 0, suspended := true })
    ∧ ∀ conn2, (Peripheral.connected (Peripheral.disconnected st conn reason).1 conn2 0).1.counter
        = 0 := by
  have he : Peripheral.disconnected st conn reason
      = ({ st with default_conn := none },
         [.printk (.disconnected reason), .bt_conn_unref c]) := by
    simp [Peripheral.disconnected, h]
  rw [he]
  refine ⟨rfl, rfl, rfl, by simp, ?_, fun _ => rfl⟩
  intro err hs
  simp [Peripheral.notifications_spam_thread_entry_point, Peripheral.loop_body, hs]

/-- C6 (witness): connection 1 is owned and two notifications have been sent. -/
theorem C6_peripheral_disconnected_releases_witness :
    Peripheral.disconnected { default_conn := some 1, counter := 2, suspended := false } 1 0x13
      = ({ default_conn := none, counter := 2, suspended := false },
         [.printk (.disconnected 0x13), .bt_conn_unref 1]) :=
  (C6_peripheral_disconnected_releases
    { default_conn := some 1, counter := 2, suspended := false } 1 1 0x13 rfl).1

/-- C7 (counterexample): on connection 1 the connected handler issues the primary
discovery, and the callback that reports the service at handle 10 issues the
characteristic discovery at once: the second request is issued although no
null-attribute callback has been delivered for the first. -/
theorem C7_next_discovery_before_terminal_callback :
    (Central.run 120 { Central.init with default_conn := some 1 }
      [(.connected 1 0, Central.rc_ok),
       (.discover 1 (some ⟨10, 0⟩), Central.rc_ok)]).map
        (fun r => (r.2.map fun p => (p.1.is_terminal_discover, Central.discover_count p.2),
                   Central.terminal_before_next false r.2))
      = some ([(false, 1), (false, 1)], false) := by
  decide

/-- C7 (amended): whenever `discover_func` is called with a null attribute or with
`discover_params.uuid` set, it returns "stop", which ends the discovery request being
reported, and issues at most one new discovery request, so that at most one discovery
request is outstanding; a callback with a null attribute issues none. The next request
is thus issued inside the callback that reports a match of the previous request, not
after that request's null-attribute callback. -/
theorem C7_discover_func_one_request (E : Int) (st : Central.State) (conn : Nat)
    (attr : Option Central.bt_gatt_attr) (rc : Central.host_rc)
    (h : attr = none ∨ st.discover_params.uuid = .uuid) :
    ∃ st1 acts, Central.discover_func E st conn attr rc = some (st1, acts, .STOP)
      ∧ Central.discover_count acts ≤ 1
      ∧ (attr = none → Central.discover_count acts = 0) := by
  cases attr with
  | none => exact ⟨_, _, rfl, by decide, fun _ => by decide⟩
  | some a =>
    have hp : st.discover_params.uuid = .uuid := by
      rcases h with h | h
      · cases h
      · exact h
    have hcount : ∀ (m : Central.Msg) (r : Central.discover_req) (err : Int),
        Central.discover_count ([.printk m, .bt_gatt_discover r]
          ++ (if err ≠ 0 then [.printk (.discover_failed err)] else [])) ≤ 1 := by
      intro m r err
      by_cases he : err = 0 <;> simp [Central.discover_count, Central.Action.is_discover, he]
    by_cases h1 : Central.bt_uuid_cmp st.uuid Central.my_svc_uuid = 0
    · exact ⟨_, _, Central.discover_func_service_phase E st conn a rc hp h1, hcount _ _ _,
        fun hn => by cases hn⟩
    · by_cases h2 : Central.bt_uuid_cmp st.uuid Central.my_char_uuid = 0
      · exact ⟨_, _, Central.discover_func_characteristic_phase E st conn a rc hp h1 h2,
          hcount _ _ _, fun hn => by cases hn⟩
      · refine ⟨_, _, Central.discover_func_descriptor_phase E st conn a rc hp h1 h2, ?_,
          fun hn => by cases hn⟩
        by_cases hr : rc.subscribe ≠ 0 ∧ rc.subscribe ≠ -E <;>
          simp [Central.discover_count, Central.Action.is_discover, hr]

/-- C7 (witness): the callback that reports the service at handle 10 after a successful
connected event returns "stop" and issues one discovery request. -/
theorem C7_discover_func_one_request_witness :
    ∃ st1 acts,
      Central.discover_func 120
          (Central.connected { Central.init with default_conn := some 1 } 1 0
            Central.rc_ok).1 1 (some ⟨10, 0⟩) Central.rc_ok
        = some (st1, acts, .STOP)
      ∧ Central.discover_count acts ≤ 1 := by
  obtain ⟨st1, acts, h1, h2, _⟩ := C7_discover_func_one_request 120
    (Central.connected { Central.init with default_conn := some 1 } 1 0 Central.rc_ok).1 1
    (some ⟨10, 0⟩) Central.rc_ok (Or.inr rfl)
  exact ⟨st1, acts, h1, h2⟩

/-- C8: in the peripheral, along every sequence of events that the host delivers from
the initial state, no notify request is issued in a step taken while no connection is
owned or while the producer is suspended, and a step takes the producer from suspended
to running only if it is the `le_param_updated` handler invoked for a param_updated
event on the connection that is owned at that moment. -/
theorem C8_producer_gating (pre : List Peripheral.Event) (h0 h1 : Peripheral.link_state)
    (st : Peripheral.State) (e : Peripheral.Event)
    (hpre : Peripheral.host_run .idle Peripheral.init pre = some (h0, st))
    (hdel : Peripheral.host_step h0 e = some h1) :
    ((st.default_conn = none ∨ st.suspended = true) →
      Peripheral.notify_count (Peripheral.step st e).2 = 0)
    ∧ (st.suspended = true → (Peripheral.step st e).1.suspended = false →
        ∃ conn interval latency timeout,
          e = .le_param_updated conn interval latency timeout
          ∧ st.default_conn = some conn) := by
  obtain ⟨hquiet, honly, _⟩ := producer_gating_any_state st e
  refine ⟨hquiet, fun hs hr => ?_⟩
  obtain ⟨conn, interval, latency, timeout, rfl⟩ := honly hs hr
  refine ⟨conn, interval, latency, timeout, rfl, ?_⟩
  have hinv : Peripheral.link_inv h0 st :=
    Peripheral.producer_host_run_inv pre
      (show Peripheral.link_inv .idle Peripheral.init from rfl) hpre
  cases h0 with
  | idle => simp [Peripheral.host_step] at hdel
  | established c =>
    simp only [Peripheral.host_step] at hdel
    split at hdel
    · rename_i hc
      subst hc
      exact hinv
    · simp at hdel

/-- C8 (witness): connection 1 has been established and the producer is still suspended:
a pass of the producer issues no notify request, and the param_updated event for
connection 1, the owned one, is what resumes it. -/
theorem C8_producer_gating_witness :
    Peripheral.notify_count
        (Peripheral.step { default_conn := some 1, counter := 0, suspended := true }
          (.thread_run 0)).2 = 0
    ∧ ∃ conn interval latency timeout,
        Peripheral.Event.le_param_updated 1 24 0 400
          = .le_param_updated conn interval latency timeout
        ∧ (some 1 : Option Nat) = some conn :=
  ⟨(C8_producer_gating [.connected 1 0] (.established 1) (.established 1)
      { default_conn := some 1, counter := 0, suspended := true } (.thread_run 0)
      (by decide) (by decide)).1 (Or.inr rfl),
   (C8_producer_gating [.connected 1 0] (.established 1) (.established 1)
      { default_conn := some 1, counter := 0, suspended := true }
      (.le_param_updated 1 24 0 400) (by decide) (by decide)).2 rfl rfl⟩

/-- C9: in the descriptor phase (the cursor holds neither the custom service UUID nor
the custom characteristic UUID), for every result code r of the subscribe request,
`discover_func` prints the subscribe failure exactly when r is non-zero and different
from -EALREADY, prints the subscribed line exactly when r is 0 or -EALREADY, returns
"stop", and the subscribe request is the only host request it issues. -/
theorem C9_subscribe_result (EALREADY : Int) (st : Central.State) (conn : Nat)
    (a : Central.bt_gatt_attr) (rc : Central.host_rc)
    (hp : st.discover_params.uuid = .uuid)
    (h1 : Central.bt_uuid_cmp st.uuid Central.my_svc_uuid ≠ 0)
    (h2 : Central.bt_uuid_cmp st.uuid Central.my_char_uuid ≠ 0) :
    ∃ st1 acts, Central.discover_func EALREADY st conn (some a) rc = some (st1, acts, .STOP)
      ∧ ((∃ err, Central.Action.printk (.subscribe_failed err) ∈ acts)
          ↔ rc.subscribe ≠ 0 ∧ rc.subscribe ≠ -EALREADY)
      ∧ (Central.Action.printk .subscribed ∈ acts
          ↔ rc.subscribe = 0 ∨ rc.subscribe = -EALREADY)
      ∧ Central.requests acts = [.bt_gatt_subscribe conn st1.subscribe_params]
      ∧ st1.subscribe_params
          = ⟨.notify_func, Central.BT_GATT_CCC_NOTIFY, st.subscribe_params.value_handle,
              a.handle⟩ := by
  refine ⟨_, _, Central.discover_func_descriptor_phase EALREADY st conn a rc hp h1 h2, ?_, ?_,
    Central.requests_subscribe _ _ _ _ _ _, rfl⟩
  · by_cases hr : rc.subscribe ≠ 0 ∧ rc.subscribe ≠ -EALREADY
    · simp only [if_pos hr]
      exact ⟨fun _ => hr, fun _ => ⟨rc.subscribe, by simp⟩⟩
    · simp only [if_neg hr]
      constructor
      · rintro ⟨err, he⟩
        simp at he
      · intro h
        exact absurd h hr
  · by_cases hr : rc.subscribe ≠ 0 ∧ rc.subscribe ≠ -EALREADY
    · simp only [if_pos hr]
      constructor
      · intro he
        simp at he
      · rintro (h | h)
        · exact absurd h hr.1
        · exact absurd h hr.2
    · simp only [if_neg hr]
      constructor
      · intro _
        by_cases h0 : rc.subscribe = 0
        · exact Or.inl h0
        · right
          by_contra hne
          exact hr ⟨h0, hne⟩
      · intro _
        simp

/-- C9 (witness): the CCC descriptor is reported at handle 14 and the host answers the
subscribe request with -EALREADY: the subscribed line is printed. -/
theorem C9_subscribe_result_witness :
    ∃ st1 acts,
      Central.discover_func 120
          { Central.init with
            default_conn := some 1
            uuid := Central.BT_UUID_GATT_CCC
            discover_params :=
              { uuid := .uuid, func := .discover_func, start_handle := 14,
                end_handle := 0xffff, type := .DESCRIPTOR } }
          1 (some ⟨14, 0⟩) { Central.rc_ok with subscribe := -120 }
        = some (st1, acts, .STOP)
      ∧ Central.Action.printk .subscribed ∈ acts := by
  obtain ⟨st1, acts, h, _, hs, _, _⟩ := C9_subscribe_result 120
    { Central.init with
      default_conn := some 1
      uuid := Central.BT_UUID_GATT_CCC
      discover_params :=
        { uuid := .uuid, func := .discover_func, start_handle := 14,
          end_handle := 0xffff, type := .DESCRIPTOR } }
    1 ⟨14, 0⟩ { Central.rc_ok with subscribe := -120 } rfl (by decide) (by decide)
  exact ⟨st1, acts, h, hs.mpr (Or.inr rfl)⟩

/-- C10 (counterexample): the central is subscribed with expected counter 0 and a
notification with an empty payload arrives through a non-null data pointer (length 0,
the byte stored at the pointer is 7): `notify_func` handles it as data, prints the
mismatch of 7 against 0, advances the counter to 1, keeps the value handle 13 and
returns "continue". -/
theorem C10_zero_length_notification_is_data :
    Central.notify_func { Central.subscribed with counter := 0 } 1 (some [7]) 0
      = some ({ Central.subscribed with counter := 1 }, [.printk (.mismatch 7 0)], .CONTINUE)
    ∧ ({ Central.subscribed with counter := 1 } : Central.State).subscribe_params.value_handle
      = 13 := by
  decide

/-- C10 (amended): for every state, a notification delivered without data (a null data
pointer, by which the host tells that the subscription was removed), whatever its
length argument, makes `notify_func` set the value handle of the subscription to 0 and
return "stop"; it prints only the unsubscribed line, no counter mismatch, and leaves
the expected counter and everything else unchanged. -/
theorem C10_notify_func_unsubscribed (st : Central.State) (conn length : Nat) :
    ∃ st1 acts, Central.notify_func st conn none length = some (st1, acts, .STOP)
      ∧ st1 = { st with subscribe_params := { st.subscribe_params with value_handle := 0 } }
      ∧ st1.subscribe_params.value_handle = 0
      ∧ st1.counter = st.counter
      ∧ acts = [.printk .unsubscribed]
      ∧ ∀ o e, Central.Action.printk (.mismatch o e) ∉ acts :=
  ⟨_, _, rfl, rfl, rfl, rfl, rfl, fun _ _ => by simp⟩

/-- C11: starting from counter 0, k consecutive successful notifications leave the counter
at k mod 256, for the expected counter of the central (k notifications that carry data,
handled by `notify_func`) and for the produced counter of the peripheral (k passes of
the running producer whose send succeeds on an owned connection): the counter equals k
for k < 256 and is 0 again after exactly 256. -/
theorem C11_counter_wraps_after_256 (E : Int) (cst : Central.State) (conn : Nat)
    (rc : Central.host_rc) (ps : List (List Nat)) (pst : Peripheral.State) (c k : Nat)
    (hlen : ps.length = k) (hne : ∀ p ∈ ps, p ≠ [])
    (hc0 : cst.counter = 0) (hp0 : pst.counter = 0)
    (hown : pst.default_conn = some c) (hrun : pst.suspended = false) :
    (∃ st1 tr, Central.run E cst (Central.deliver conn rc ps) = some (st1, tr)
      ∧ st1.counter = k % 256
      ∧ (k < 256 → st1.counter = k)
      ∧ (k = 256 → st1.counter = 0))
    ∧ (Peripheral.run pst (List.replicate k (.thread_run 0))).counter = k % 256
    ∧ (k < 256 → (Peripheral.run pst (List.replicate k (.thread_run 0))).counter = k)
    ∧ (k = 256 → (Peripheral.run pst (List.replicate k (.thread_run 0))).counter = 0) := by
  obtain ⟨st1, tr, hr, hcount⟩ :=
    Central.run_deliver_counter E conn rc ps cst hne (by rw [hc0]; decide)
  rw [hc0, hlen, Nat.zero_add] at hcount
  have hper : (Peripheral.run pst (List.replicate k (.thread_run 0))).counter = k % 256 := by
    rw [Peripheral.run_successful_passes k pst c hown hrun (by rw [hp0]; decide), hp0,
      Nat.zero_add]
  refine ⟨⟨st1, tr, hr, hcount, fun h => ?_, fun h => ?_⟩, hper, fun h => ?_, fun h => ?_⟩
  · rw [hcount, Nat.mod_eq_of_lt h]
  · rw [hcount, h]
  · rw [hper, Nat.mod_eq_of_lt h]
  · rw [hper, h]

/-- C11 (witness): 256 notifications with payload byte 0 for the central, 256 successful
passes of the producer on connection 1 for the peripheral. -/
theorem C11_counter_wraps_after_256_witness :
    (∃ st1 tr, Central.run 120 Central.init
        (Central.deliver 1 Central.rc_ok (List.replicate 256 [0])) = some (st1, tr)
      ∧ st1.counter = 0)
    ∧ (Peripheral.run { default_conn := some 1, counter := 0, suspended := false }
        (List.replicate 256 (.thread_run 0))).counter = 0 := by
  have h := C11_counter_wraps_after_256 120 Central.init 1 Central.rc_ok
    (List.replicate 256 [0]) { default_conn := some 1, counter := 0, suspended := false }
    1 256 (List.length_replicate _ _)
    (fun p hp => by rw [List.eq_of_mem_replicate hp]; simp) rfl rfl rfl rfl
  obtain ⟨⟨st1, tr, hr, _, _, h0⟩, _, _, hp⟩ := h
  exact ⟨⟨st1, tr, hr, h0 rfl⟩, hp rfl⟩

/-- C12: in the central, for every state (hence along every event sequence that starts
with a successful connected event) a Characteristic-type discovery request is issued
only by a discovery callback that carries an attribute while the cursor targets the
custom service UUID, and a Descriptor-type discovery request only by a discovery
callback that carries an attribute while the cursor targets the custom characteristic
UUID. A Characteristic discovery is thus never issued before a service match and a
Descriptor discovery never before a characteristic match. -/
theorem C12_discovery_phase_order (E : Int) (st st1 : Central.State) (e : Central.Event)
    (rc : Central.host_rc) (acts : List Central.Action) (r : Central.discover_req)
    (hstep : Central.step E st e rc = some (st1, acts))
    (hr : Central.Action.bt_gatt_discover r ∈ acts) :
    (r.type = .CHARACTERISTIC →
      ∃ conn a, e = .discover conn (some a)
        ∧ Central.deref_uuid st = some st.uuid
        ∧ Central.bt_uuid_cmp st.uuid Central.my_svc_uuid = 0)
    ∧ (r.type = .DESCRIPTOR →
      ∃ conn a, e = .discover conn (some a)
        ∧ Central.deref_uuid st = some st.uuid
        ∧ Central.bt_uuid_cmp st.uuid Central.my_svc_uuid ≠ 0
        ∧ Central.bt_uuid_cmp st.uuid Central.my_char_uuid = 0) := by
  rcases Central.step_discover_origin hstep hr with
    ⟨_, ht⟩ | ⟨conn, a, he, hp, h1, ht⟩ | ⟨conn, a, he, hp, h1, h2, ht⟩
  · rw [ht]
    exact ⟨fun h => (by cases h), fun h => by cases h⟩
  · have hd : Central.deref_uuid st = some st.uuid := by simp [Central.deref_uuid, hp]
    rw [ht]
    exact ⟨fun _ => ⟨conn, a, he, hd, h1⟩, fun h => by cases h⟩
  · have hd : Central.deref_uuid st = some st.uuid := by simp [Central.deref_uuid, hp]
    rw [ht]
    exact ⟨fun h => (by cases h), fun _ => ⟨conn, a, he, hd, h1, h2⟩⟩

/-- C12 (witness): after a successful connected event the service is reported at handle
10; the Characteristic request that follows comes from that callback, taken while the
cursor targets the custom service UUID. -/
theorem C12_discovery_phase_order_witness :
    ∃ conn a, Central.Event.discover 1 (some ⟨10, 0⟩) = .discover conn (some a)
      ∧ Central.bt_uuid_cmp
          (Central.connected { Central.init with default_conn := some 1 } 1 0
            Central.rc_ok).1.uuid Central.my_svc_uuid = 0 := by
  obtain ⟨conn, a, he, _, hu⟩ := (C12_discovery_phase_order 120
    (Central.connected { Central.init with default_conn := some 1 } 1 0 Central.rc_ok).1
    { Central.init with
      default_conn := some 1
      uuid := Central.my_char_uuid
      discover_params :=
        { uuid := .uuid, func := .discover_func, start_handle := 11,
          end_handle := 0xffff, type := .CHARACTERISTIC } }
    (.discover 1 (some ⟨10, 0⟩)) Central.rc_ok
    [.printk (.attribute 10),
     .bt_gatt_discover
       ⟨some 1, some Central.my_char_uuid, .discover_func, 11, 0xffff, .CHARACTERISTIC⟩]
    ⟨some 1, some Central.my_char_uuid, .discover_func, 11, 0xffff, .CHARACTERISTIC⟩
    (by decide) (by decide)).1 rfl
  exact ⟨conn, a, he, hu⟩

/-- C13 (defect in `disconnected` of the central): `counter = 0` is executed before the
test `default_conn != conn`. With connection 1 owned and subscribed and the expected
counter at 1, a disconnected event for connection 2 leaves the owned connection, the
cursor and the subscription as they are and restarts no scan, but it sets the
expected counter to 0, whereas the claim says the counter is unchanged. -/
theorem C13_stale_disconnect_resets_counter :
    (Central.run 120 Central.init Central.session).map (fun r => r.1)
      = some Central.subscribed
    ∧ Central.subscribed.default_conn = some 1
    ∧ Central.subscribed.counter = 1
    ∧ Central.disconnected Central.subscribed 2 0x13 Central.rc_ok
      = ({ Central.subscribed with counter := 0 }, [.printk (.disconnected 2 0x13)]) := by
  decide

/-- C14: in the peripheral, a pass of the running producer with an owned connection and
counter c (a byte) issues exactly one notify request, on that connection, with a
20-byte payload whose first byte is c; when the send succeeds the counter becomes
(c + 1) mod 256 and the producer stays running, and when the send fails, whatever the
error, the counter becomes 0 and the producer is suspended. A pass with no owned
connection issues no notify request, sets the counter to 0 and suspends the producer. -/
theorem C14_producer_pass (st : Peripheral.State) (conn : Nat) (err : Int)
    (hrun : st.suspended = false) (hown : st.default_conn = some conn)
    (hc : st.counter < 256) :
    (∃ payload,
      (Peripheral.notifications_spam_thread_entry_point st err).2.filter
          Peripheral.Action.is_notify = [.bt_gatt_notify conn payload]
      ∧ payload.length = 20
      ∧ payload.head? = some st.counter)
    ∧ (err = 0 →
        (Peripheral.notifications_spam_thread_entry_point st err).1
          = { st with counter := (st.counter + 1) % 256 }
        ∧ (Peripheral.notifications_spam_thread_entry_point st err).1.suspended = false)
    ∧ (err ≠ 0 →
        (Peripheral.notifications_spam_thread_entry_point st err).1
          = { st with counter := 0, suspended := true })
    ∧ ∀ (st0 : Peripheral.State) (err0 : Int),
        st0.suspended = false → st0.default_conn = none →
          Peripheral.notifications_spam_thread_entry_point st0 err0
            = ({ st0 with counter := 0, suspended := true },
               [.printk .suspending, .k_thread_suspend]) := by
  refine ⟨⟨Peripheral.notif st.counter, ?_, rfl, ?_⟩, ?_, ?_, ?_⟩
  · by_cases he : err = 0 <;>
      simp [Peripheral.notifications_spam_thread_entry_point, Peripheral.loop_body, hrun,
        hown, he, Peripheral.Action.is_notify]
  · simp [Peripheral.notif, Nat.mod_eq_of_lt hc]
  · intro he
    simp [Peripheral.notifications_spam_thread_entry_point, Peripheral.loop_body, hrun,
      hown, he]
  · intro he
    simp [Peripheral.notifications_spam_thread_entry_point, Peripheral.loop_body, hrun,
      hown, he]
  · intro st0 err0 h0 hn
    simp [Peripheral.notifications_spam_thread_entry_point, Peripheral.loop_body, h0, hn]

/-- C14 (witness): connection 1 is owned, the counter is 255 and the send succeeds: one
notify request with first byte 255 is issued and the counter wraps to 0. -/
theorem C14_producer_pass_witness :
    Peripheral.notifications_spam_thread_entry_point
        { default_conn := some 1, counter := 255, suspended := false } 0
      = ({ default_conn := some 1, counter := 0, suspended := false },
         [.bt_gatt_notify 1 (Peripheral.notif 255)])
    ∧ (Peripheral.notifications_spam_thread_entry_point
        { default_conn := some 1, counter := 255, suspended := false } 0).1
      = { default_conn := some 1, counter := (255 + 1) % 256, suspended := false } :=
  ⟨by decide,
   ((C14_producer_pass { default_conn := some 1, counter := 255, suspended := false } 1 0
      rfl rfl (by decide)).2.1 rfl).1⟩

/-- C15: in the central, for every connected event with error code 0 that the host
delivers after any sequence of events from the initial state, the reported connection
is the owned one once the handler has returned (it is the connection that the accepted
connect request of `eir_found` stored in `default_conn`), and the handler issues
exactly one host request, a discovery request on that connection: Primary type, the
custom service UUID, handles 0x0001 to 0xFFFF, `discover_func` as callback. -/
theorem C15_connected_starts_discovery (E : Int)
    (pre : List (Central.Event × Central.host_rc)) (h0 h1 : Central.link_state)
    (st : Central.State) (conn : Nat) (rc : Central.host_rc)
    (hpre : Central.host_run E .idle Central.init pre = some (h0, st))
    (hdel : Central.host_step h0 (.connected conn 0) rc (Central.connected st conn 0 rc).2
      = some h1) :
    (Central.connected st conn 0 rc).1.default_conn = some conn
    ∧ Central.requests (Central.connected st conn 0 rc).2
        = [.bt_gatt_discover
            ⟨some conn, some Central.my_svc_uuid, .discover_func, 0x0001, 0xffff, .PRIMARY⟩]
    ∧ Central.discover_count (Central.connected st conn 0 rc).2 = 1 := by
  obtain ⟨hown, _⟩ := Central.host_run_connected hpre hdel
  refine ⟨?_, ?_, ?_⟩
  · rw [Central.connected_ok st conn rc hown]
    exact hown
  · by_cases hd : rc.discover = 0 <;>
      simp [Central.connected, hown, Central.requests, Central.Action.is_printk,
        Central.discover_request, Central.deref_uuid, hd]
  · by_cases hd : rc.discover = 0 <;>
      simp [Central.connected, hown, Central.discover_count, Central.Action.is_discover, hd]

/-- C15 (witness): "iSpam" was found and connection 1 created; the connected event for
connection 1 issues the primary discovery. -/
theorem C15_connected_starts_discovery_witness :
    (Central.connected { Central.init with default_conn := some 1 } 1 0
        Central.rc_ok).1.default_conn = some 1
    ∧ Central.requests
        (Central.connected { Central.init with default_conn := some 1 } 1 0 Central.rc_ok).2
      = [.bt_gatt_discover
          ⟨some 1, some Central.my_svc_uuid, .discover_func, 0x0001, 0xffff, .PRIMARY⟩] :=
  have h := C15_connected_starts_discovery 120
    [(.device_found 7 (-40) Central.BT_GAP_ADV_TYPE_ADV_IND
        [Central.name_element [0x69, 0x53, 0x70, 0x61, 0x6d]], Central.rc_ok)]
    (.connecting 1) (.established 1) { Central.init with default_conn := some 1 } 1
    Central.rc_ok (by decide) (by decide)
  ⟨h.1, h.2.1⟩

/-- C16 (counterexample): the central is subscribed on connection 1 (value handle 13, CCC
handle 14, cursor at the CCC UUID); after the disconnected event for connection 1 the
subscription and the cursor are as before: the value handle is still 13. -/
theorem C16_disconnected_keeps_subscription :
    (Central.run 120 Central.init Central.session).map (fun r => r.1)
      = some Central.subscribed
    ∧ (Central.disconnected Central.subscribed 1 0x13 Central.rc_ok).1
      = { Central.subscribed with default_conn := none, counter := 0 }
    ∧ (Central.disconnected Central.subscribed 1 0x13
        Central.rc_ok).1.subscribe_params.value_handle = 13 := by
  decide

/-- C16 (amended): in the central the disconnected handler for the owned connection
leaves the Subscription State and the Discovery Cursor as they were. The value handle
is set to 0 by the notification without data, the cursor is cleared by the discovery
callback without attribute, and the next connected event with error code 0 on the
owned connection sets the cursor anew (custom service UUID, `discover_func`, handles
0x0001 to 0xFFFF, Primary). -/
theorem C16_disconnected_frame (E : Int) (st : Central.State) (conn reason : Nat)
    (rc : Central.host_rc) (hown : st.default_conn = some conn) :
    (Central.disconnected st conn reason rc).1
      = { st with default_conn := none, counter := 0 }
    ∧ (Central.disconnected st conn reason rc).1.subscribe_params = st.subscribe_params
    ∧ (Central.disconnected st conn reason rc).1.discover_params = st.discover_params
    ∧ (Central.disconnected st conn reason rc).1.uuid = st.uuid
    ∧ (∀ length, (Central.notify_func st conn none length).map
          (fun r => r.1.subscribe_params.value_handle) = some 0)
    ∧ (Central.discover_func E st conn none rc).map (fun r => r.1.discover_params)
        = some { uuid := .NULL, func := .NULL, start_handle := 0, end_handle := 0,
                 type := .PRIMARY }
    ∧ (Central.connected st conn 0 rc).1.uuid = Central.my_svc_uuid
    ∧ (Central.connected st conn 0 rc).1.discover_params
        = { uuid := .uuid, func := .discover_func, start_handle := 0x0001,
            end_handle := 0xffff, type := .PRIMARY } := by
  have hd : (Central.disconnected st conn reason rc).1
      = { st with default_conn := none, counter := 0 } := by
    simp [Central.disconnected, hown]
  rw [hd, Central.connected_ok st conn rc hown]
  exact ⟨rfl, rfl, rfl, rfl, fun _ => rfl, rfl, rfl, rfl⟩

/-- C16 (witness): the subscribed central loses connection 1. -/
theorem C16_disconnected_frame_witness :
    (Central.disconnected Central.subscribed 1 0x13 Central.rc_ok).1.subscribe_params
      = { notify := .notify_func, value := Central.BT_GATT_CCC_NOTIFY, value_handle := 13,
          ccc_handle := 14 } :=
  (C16_disconnected_frame 120 Central.subscribed 1 0x13 Central.rc_ok rfl).2.1

/-- C17: in the central each of the three failure and teardown paths issues a scan start
request: `eir_found` when the connect request it made fails, `connected` for a
non-zero error code, and `disconnected` for the owned connection; after the latter two
no connection is owned. -/
theorem C17_scan_restarted (se sc sd se1 : Central.State) (d : Central.bt_data)
    (u conn conn_err conn_d reason : Nat) (rc : Central.host_rc)
    (acts : List Central.Action) (b : Bool)
    (he : Central.eir_found se d u rc = some (se1, acts, b))
    (hm : Central.Action.bt_conn_le_create u ∈ acts) (hf : rc.create_conn ≠ 0)
    (herr : conn_err ≠ 0) (hown : sd.default_conn = some conn_d) :
    Central.Action.bt_le_scan_start ∈ acts
    ∧ Central.Action.bt_le_scan_start ∈ (Central.connected sc conn conn_err rc).2
    ∧ (Central.connected sc conn conn_err rc).1.default_conn = none
    ∧ Central.Action.bt_le_scan_start ∈ (Central.disconnected sd conn_d reason rc).2
    ∧ (Central.disconnected sd conn_d reason rc).1.default_conn = none := by
  refine ⟨?_, ?_, ?_, ?_, ?_⟩
  · unfold Central.eir_found at he
    split at he
    · split at he
      · simp at he
      · simp [hf] at he
        obtain ⟨_, rfl, _⟩ := he
        simp [Central.start_scan]
      · simp at he
        obtain ⟨_, rfl, _⟩ := he
        simp at hm
    · simp at he
      obtain ⟨_, rfl, _⟩ := he
      simp at hm
  · simp [Central.connected, herr, Central.start_scan]
  · simp [Central.connected, herr]
  · simp [Central.disconnected, hown, Central.start_scan]
  · simp [Central.disconnected, hown]

/-- C17 (witness): the connect request for "iSpam" is refused with -5; a connection
attempt fails with error 0x3e; the owned connection 1 drops. -/
theorem C17_scan_restarted_witness :
    Central.Action.bt_le_scan_start
        ∈ [Central.Action.bt_le_scan_stop, .bt_conn_le_create 7,
           .printk (.create_conn_failed (-5)), .bt_le_scan_start, .printk .scan_started]
    ∧ Central.Action.bt_le_scan_start
        ∈ (Central.connected { Central.init with default_conn := some 1 } 1 0x3e
            { Central.rc_ok with create_conn := -5 }).2
    ∧ (Central.connected { Central.init with default_conn := some 1 } 1 0x3e
        { Central.rc_ok with create_conn := -5 }).1.default_conn = none
    ∧ Central.Action.bt_le_scan_start
        ∈ (Central.disconnected Central.subscribed 1 0x13
            { Central.rc_ok with create_conn := -5 }).2
    ∧ (Central.disconnected Central.subscribed 1 0x13
        { Central.rc_ok with create_conn := -5 }).1.default_conn = none :=
  C17_scan_restarted Central.init { Central.init with default_conn := some 1 }
    Central.subscribed Central.init
    (Central.name_element [0x69, 0x53, 0x70, 0x61, 0x6d]) 7 1 0x3e 1 0x13
    { Central.rc_ok with create_conn := -5 }
    [.bt_le_scan_stop, .bt_conn_le_create 7, .printk (.create_conn_failed (-5)),
     .bt_le_scan_start, .printk .scan_started]
    false (by decide) (by decide) (by decide) (by decide) rfl

/-- C18 (defect in `notify_func`): the expected value is printed as `counter - 1` after
the increment. With expected counter 6 and payload byte 7 the line shows (7, 6); with
expected counter 255 and payload byte 7 the counter has wrapped to 0 and the line
shows (7, -1), whereas the claim says the pair is (7, 255). -/
theorem C18_mismatch_report_at_wrap :
    Central.notify_func { Central.init with counter := 6 } 1 (some [7]) 1
      = some ({ Central.init with counter := 7 }, [.printk (.mismatch 7 6)], .CONTINUE)
    ∧ Central.notify_func { Central.init with counter := 255 } 1 (some [7]) 1
      = some ({ Central.init with counter := 0 }, [.printk (.mismatch 7 (-1))], .CONTINUE)
    ∧ (-1 : Int) ≠ 255 := by
  decide

/-- C19: for every n, when the running producer of the peripheral starts with counter 0
and makes n passes whose send succeeds on its owned connection, and the central starts
with expected counter 0 and receives the n payloads of those passes in order, then
`notify_func` handles each of them without printing anything (no mismatch) and both
counters end at n mod 256. -/
theorem C19_consumer_accepts_producer_stream (E : Int) (n : Nat) (pst : Peripheral.State)
    (cst : Central.State) (c conn : Nat) (rc : Central.host_rc)
    (hown : pst.default_conn = some c) (hrun : pst.suspended = false)
    (hp0 : pst.counter = 0) (hc0 : cst.counter = 0) :
    (Peripheral.payloads
        (Peripheral.trace pst (List.replicate n (.thread_run 0)))).length = n
    ∧ (∃ st1 tr,
        Central.run E cst
            (Central.deliver conn rc
              (Peripheral.payloads
                (Peripheral.trace pst (List.replicate n (.thread_run 0)))))
          = some (st1, tr)
        ∧ (∀ p ∈ tr, p.2 = [])
        ∧ st1.counter = n % 256)
    ∧ (Peripheral.run pst (List.replicate n (.thread_run 0))).counter = n % 256 := by
  obtain ⟨hlen, st1, tr, hr, hquiet, hcount⟩ :=
    Peripheral.consumer_follows_producer E conn c rc n pst cst hown hrun
      (by rw [hp0]; decide) (by rw [hc0, hp0])
  rw [hp0, Nat.zero_add] at hcount
  refine ⟨hlen, ⟨st1, tr, hr, hquiet, hcount⟩, ?_⟩
  rw [Peripheral.run_successful_passes n pst c hown hrun (by rw [hp0]; decide), hp0,
    Nat.zero_add]

/-- C19 (witness): 300 passes; both counters end at 44. -/
theorem C19_consumer_accepts_producer_stream_witness :
    (∃ st1 tr,
        Central.run 120 Central.init
            (Central.deliver 1 Central.rc_ok
              (Peripheral.payloads
                (Peripheral.trace { default_conn := some 1, counter := 0, suspended := false }
                  (List.replicate 300 (.thread_run 0)))))
          = some (st1, tr)
        ∧ (∀ p ∈ tr, p.2 = [])
        ∧ st1.counter = 44)
    ∧ (Peripheral.run { default_conn := some 1, counter := 0, suspended := false }
        (List.replicate 300 (.thread_run 0))).counter = 44 :=
  (C19_consumer_accepts_producer_stream 120 300
    { default_conn := some 1, counter := 0, suspended := false } Central.init 1 1
    Central.rc_ok rfl rfl rfl rfl).2

/-- C20 (defect in `discover_func`): the start handle of the next request is computed in
16 bits without a test for the end of the handle space. A service reported at handle
0xFFFF is followed by a characteristic discovery from handle 0, and a characteristic
reported at handle 0xFFFE (value handle 0xFFFF) by a descriptor discovery from handle
0, whereas the claim says that the start handle is strictly greater than the matched
handle. -/
theorem C20_start_handle_wraps :
    (Central.discover_func 120
        (Central.connected { Central.init with default_conn := some 1 } 1 0 Central.rc_ok).1
        1 (some ⟨0xFFFF, 0⟩) Central.rc_ok).map (fun r => Central.requests r.2.1)
      = some [.bt_gatt_discover
          ⟨some 1, some Central.my_char_uuid, .discover_func, 0, 0xffff, .CHARACTERISTIC⟩]
    ∧ (Central.run 120 { Central.init with default_conn := some 1 }
        [(.connected 1 0, Central.rc_ok),
         (.discover 1 (some ⟨10, 0⟩), Central.rc_ok),
         (.discover 1 (some ⟨0xFFFE, 0xFFFF⟩), Central.rc_ok)]).map
          (fun r => r.2.map fun p => Central.requests p.2)
      = some [[.bt_gatt_discover
                ⟨some 1, some Central.my_svc_uuid, .discover_func, 1, 0xffff, .PRIMARY⟩],
              [.bt_gatt_discover
                ⟨some 1, some Central.my_char_uuid, .discover_func, 11, 0xffff,
                  .CHARACTERISTIC⟩],
              [.bt_gatt_discover
                ⟨some 1, some Central.BT_UUID_GATT_CCC, .discover_func, 0, 0xffff,
                  .DESCRIPTOR⟩]]
    ∧ ¬ (0xFFFF < 0) ∧ ¬ (0xFFFE < 0) := by
  decide
